import Mathlib

/-!
Verification of the per-connection session state machine and the
mentorship-request engine of the ACM-Mentorship backend
(`src/backend/src/socket/AuthenticatedSocket.ts`), as a shallow embedding.

The persistence gateway (`DBGet`/`DBGetWithID`/`DBSetWithID`/`DBDeleteWithID`/
`DBCreate`) is modelled by a record of association lists, one per collection.
`DBCreate` is an external collaborator producing a fresh document ID; the
embedding passes the created ID in as a parameter and theorems hypothesise its
freshness.  Field-level validators are external collaborators as well and are
abstracted to boolean outcomes.  Document IDs are assumed to be nonempty
strings, so JavaScript truthiness tests on them are modelled as presence
(`Option`).  Every modelled function also returns the ordered list of
gateway / socket operations it performs, so that theorems can speak about which
documents were read or written and what was broadcast.
-/

namespace ACMMentorship

/-- One storage collection: an association list keyed by document ID. -/
abbrev AList (α : Type) := List (String × α)

/-- Lookup by document ID (`DBGetWithID`). -/
def alookup {α : Type} : AList α → String → Option α
  | [], _ => none
  | (k, v) :: rest, i => if k = i then some v else alookup rest i

/-- Merge-update of the document with the given ID (`DBSetWithID` with
`merge = true`); the update function sets exactly the fields named at the
call site. -/
def aset {α : Type} : AList α → String → (α → α) → AList α
  | [], _, _ => []
  | (k, v) :: rest, i, f =>
      if k = i then (k, f v) :: aset rest i f else (k, v) :: aset rest i f

/-- Delete by document ID (`DBDeleteWithID`). -/
def adelete {α : Type} : AList α → String → AList α
  | [], _ => []
  | (k, v) :: rest, i => if k = i then adelete rest i else (k, v) :: adelete rest i

/-- Index of the first occurrence, `Array.prototype.indexOf` (with `none`
standing for `-1`). -/
def firstIdx : List String → String → Option Nat
  | [], _ => none
  | y :: rest, x => if y = x then some 0 else (firstIdx rest x).map (· + 1)

/-- JS `l.splice(l.indexOf(x))` — a single-argument `splice`, as written in
`removeMentorshipRequestFromUser`: it removes everything from the first
occurrence of `x` to the end of the array; when `x` is absent, `indexOf`
returns `-1` and `splice(-1)` removes the last element. -/
def jsSpliceAllFrom (l : List String) (x : String) : List String :=
  match firstIdx l x with
  | some k => l.take k
  | none => l.dropLast

/-- JS `l.splice(l.indexOf(x), 1)`, as written in `removeMentorship` and the
assessment-delete branch: removes the first occurrence of `x`; when `x` is
absent, `splice(-1, 1)` removes the last element. -/
def jsSpliceOne (l : List String) (x : String) : List String :=
  match firstIdx l x with
  | some k => l.take k ++ l.drop (k + 1)
  | none => l.dropLast

/-- `Set.prototype.add`: keeps first-occurrence order, no duplicates. -/
def jsSetInsert (s : List String) (x : String) : List String :=
  if x ∈ s then s else s ++ [x]

/-- `new Set(list)`: deduplicated list in first-occurrence order; `size` is
its length and `has` is membership. -/
def jsSetOf (l : List String) : List String := l.foldl jsSetInsert []

/-- Removal of every occurrence, `Set.prototype.delete` on a set kept as a
deduplicated list. -/
def listErase : List String → String → List String
  | [], _ => []
  | y :: rest, x => if y = x then listErase rest x else y :: listErase rest x

/-- A stored `mentorshipRequest` document.  `mentorID` / `menteeID` may be
absent (a malformed record). -/
structure ReqR where
  mentorID : Option String := none
  menteeID : Option String := none
  deriving Repr, DecidableEq

/-- A stored `assessment` document (questions and date are opaque content and
not modelled). -/
structure AssessR where
  userID : Option String := none
  published : Bool := false
  deriving Repr, DecidableEq

/-- The fields of a stored `user` document that the verified operations read
or write. -/
structure UserR where
  isMentor : Bool := false
  acceptingMentees : Bool := false
  isMentee : Bool := false
  mentorID : Option String := none
  menteeIDs : Option (List String) := none
  mentorshipRequests : Option (List String) := none
  assessments : Option (List String) := none
  deriving Repr, DecidableEq

/-- The persistence gateway state: one association list per collection. -/
structure DB where
  users : AList UserR := []
  requests : AList ReqR := []
  assessmentDocs : AList AssessR := []
  deriving Repr, DecidableEq

def DB.getUser (db : DB) (i : String) : Option UserR := alookup db.users i

def DB.setUser (db : DB) (i : String) (f : UserR → UserR) : DB :=
  { db with users := aset db.users i f }

def DB.getRequest (db : DB) (i : String) : Option ReqR := alookup db.requests i

def DB.createRequest (db : DB) (i : String) (r : ReqR) : DB :=
  { db with requests := db.requests ++ [(i, r)] }

def DB.deleteRequest (db : DB) (i : String) : DB :=
  { db with requests := adelete db.requests i }

def DB.getAssessment (db : DB) (i : String) : Option AssessR := alookup db.assessmentDocs i

def DB.createAssessment (db : DB) (i : String) (a : AssessR) : DB :=
  { db with assessmentDocs := db.assessmentDocs ++ [(i, a)] }

def DB.setAssessment (db : DB) (i : String) (f : AssessR → AssessR) : DB :=
  { db with assessmentDocs := aset db.assessmentDocs i f }

def DB.deleteAssessment (db : DB) (i : String) : DB :=
  { db with assessmentDocs := adelete db.assessmentDocs i }

/-- An observable operation: a persistence-gateway call or a socket-side
effect, in the order the handler performs them. -/
inductive Op where
  | getUserDoc (id : String)
  | setUserDoc (id : String)
  | getRequestDoc (id : String)
  | createRequestDoc (id : String)
  | deleteRequestDoc (id : String)
  | getAssessmentDoc (id : String)
  | setAssessmentDoc (id : String)
  | createAssessmentDoc (id : String)
  | deleteAssessmentDoc (id : String)
  | queryAssessmentQuestions
  | broadcast (userIDs : List String) (eventType : String) (status : Option String)
  | emitMessage (title : String)
  | invokeCallback
  | disconnectSocket
  deriving Repr, DecidableEq

/-- Outcome a command hands to its completion callback: `ok` is
`callback(true)` (or a result payload); `failMsg m` is the `ErrorCallback`
path, `callback(false)` plus a `message` event containing `m`. -/
inductive ActionResult where
  | ok
  | failMsg (msg : String)
  deriving Repr, DecidableEq

/-- `removeMentorshipRequestFromUser(mentorshipRequestID, userID)`:
reads the user; if the `mentorshipRequests` field is missing, returns; else
performs `mentorshipRequests.splice(mentorshipRequests.indexOf(id))` — note
the single-argument `splice` — and writes the field back. -/
def removeMentorshipRequestFromUser (db : DB) (mrID userID : String) : DB × List Op :=
  match db.getUser userID with
  | none => (db, [Op.getUserDoc userID])
  | some u =>
    match u.mentorshipRequests with
    | none => (db, [Op.getUserDoc userID])
    | some l =>
      let l' := jsSpliceAllFrom l mrID
      (db.setUser userID (fun v => { v with mentorshipRequests := some l' }),
       [Op.getUserDoc userID, Op.setUserDoc userID])

/-- `removeMentorshipRequest(mentorshipRequestID, alertStatus)`: fetches the
standalone record (returning silently when absent), deletes it, and — when the
record names both parties — removes the back-reference from the mentor then
the mentee and broadcasts the deletion with the given status. -/
def removeMentorshipRequest (db : DB) (mrID : String) (alertStatus : String) : DB × List Op :=
  match db.getRequest mrID with
  | none => (db, [Op.getRequestDoc mrID])
  | some r =>
    let db1 := db.deleteRequest mrID
    match r.mentorID, r.menteeID with
    | some mID, some eID =>
      let p2 := removeMentorshipRequestFromUser db1 mrID mID
      let p3 := removeMentorshipRequestFromUser p2.1 mrID eID
      (p3.1, [Op.getRequestDoc mrID, Op.deleteRequestDoc mrID] ++ p2.2 ++ p3.2 ++
        [Op.broadcast [mID, eID] "mentorshipRequest" (some alertStatus)])
    | _, _ => (db1, [Op.getRequestDoc mrID, Op.deleteRequestDoc mrID])

/-- `addMentorshipRequestToUser(mentorshipRequestID, userID)`: reads the user,
defaults a missing `mentorshipRequests` field to `[]`, pushes the ID and
writes the field back. -/
def addMentorshipRequestToUser (db : DB) (mrID userID : String) : DB × List Op :=
  match db.getUser userID with
  | none => (db, [Op.getUserDoc userID])
  | some u =>
    let l' := (u.mentorshipRequests).getD [] ++ [mrID]
    (db.setUser userID (fun v => { v with mentorshipRequests := some l' }),
     [Op.getUserDoc userID, Op.setUserDoc userID])

/-- `addMentorshipRequest(mentorID, menteeID, testing)`: creates the
standalone record (`DBCreate`; the fresh ID is the parameter `rid`), appends
its ID to the mentor's then the mentee's `mentorshipRequests`, and broadcasts
the new request (no `status` field) to both parties. -/
def addMentorshipRequest (db : DB) (rid mentorID menteeID : String) : DB × List Op :=
  let db1 := db.createRequest rid { mentorID := some mentorID, menteeID := some menteeID }
  let p2 := addMentorshipRequestToUser db1 rid mentorID
  let p3 := addMentorshipRequestToUser p2.1 rid menteeID
  (p3.1, [Op.createRequestDoc rid] ++ p2.2 ++ p3.2 ++
    [Op.broadcast [mentorID, menteeID] "mentorshipRequest" none])

/-- `addMentorship(mentorID, menteeID)`: requires both users to exist
(`.error` models a thrown exception), pushes the mentee onto the mentor's
`menteeIDs` (defaulting a missing field to `[]`), then writes the mentee's
`mentorID` and the mentor's `menteeIDs` as two independent writes. -/
def addMentorship (db : DB) (mentorID menteeID : String) :
    Except (DB × List Op) (DB × List Op) :=
  match db.getUser mentorID with
  | none => .error (db, [Op.getUserDoc mentorID])
  | some mentorObj =>
    match db.getUser menteeID with
    | none => .error (db, [Op.getUserDoc mentorID, Op.getUserDoc menteeID])
    | some _ =>
      let lst := (mentorObj.menteeIDs).getD [] ++ [menteeID]
      let db1 := db.setUser menteeID (fun v => { v with mentorID := some mentorID })
      let db2 := db1.setUser mentorID (fun v => { v with menteeIDs := some lst })
      .ok (db2, [Op.getUserDoc mentorID, Op.getUserDoc menteeID,
        Op.setUserDoc menteeID, Op.setUserDoc mentorID])

/-- `removeMentorship(mentorID, menteeID)`: requires both users to exist; the
mentee's `mentorID` is cleared *before* the mentor's `menteeIDs` field is
checked, so a throw there (`.error`) leaves the half-written state.  The
mentee is removed with `splice(indexOf(menteeID), 1)`. -/
def removeMentorship (db : DB) (mentorID menteeID : String) :
    Except (DB × List Op) (DB × List Op) :=
  match db.getUser mentorID with
  | none => .error (db, [Op.getUserDoc mentorID])
  | some mentorObj =>
    match db.getUser menteeID with
    | none => .error (db, [Op.getUserDoc mentorID, Op.getUserDoc menteeID])
    | some _ =>
      let db1 := db.setUser menteeID (fun v => { v with mentorID := none })
      let ops1 := [Op.getUserDoc mentorID, Op.getUserDoc menteeID, Op.setUserDoc menteeID]
      match mentorObj.menteeIDs with
      | none => .error (db1, ops1)
      | some lst =>
        let lst' := jsSpliceOne lst menteeID
        .ok (db1.setUser mentorID (fun v => { v with menteeIDs := some lst' }),
          ops1 ++ [Op.setUserDoc mentorID])

/-- The intersection loop of `FindMentorshipRequestBetweenMentorMentee`:
iterates `iterSet` (the smaller of the two ID sets) and tests each ID with
`set2.has` — `set2` is always the *mentee's* set, exactly as in the source.
A missing standalone record is pruned from the mentee's then the mentor's
list; a record missing either endpoint is deleted through the decline path;
a record whose endpoints equal the queried pair in that orientation is
returned. -/
def findLoop (db : DB) (iter set2 : List String) (mentorID menteeID : String) :
    Option ReqR × DB × List Op :=
  match iter with
  | [] => (none, db, [])
  | x :: rest =>
    if x ∈ set2 then
      match db.getRequest x with
      | none =>
        let p1 := removeMentorshipRequestFromUser db x menteeID
        let p2 := removeMentorshipRequestFromUser p1.1 x mentorID
        let p3 := findLoop p2.1 rest set2 mentorID menteeID
        (p3.1, p3.2.1, [Op.getRequestDoc x] ++ p1.2 ++ p2.2 ++ p3.2.2)
      | some r =>
        match r.mentorID, r.menteeID with
        | some rm, some re =>
          if rm = mentorID ∧ re = menteeID then
            (some r, db, [Op.getRequestDoc x])
          else
            let p1 := findLoop db rest set2 mentorID menteeID
            (p1.1, p1.2.1, [Op.getRequestDoc x] ++ p1.2.2)
        | _, _ =>
          let p1 := removeMentorshipRequest db x "declined"
          let p2 := findLoop p1.1 rest set2 mentorID menteeID
          (p2.1, p2.2.1, [Op.getRequestDoc x] ++ p1.2 ++ p2.2.2)
    else
      findLoop db rest set2 mentorID menteeID

/-- `FindMentorshipRequestBetweenMentorMentee(mentorID, menteeID)`: reads both
user records, returns no-match when either is absent or lacks a
`mentorshipRequests` field, builds the two JS sets, iterates the smaller one
and tests membership with `set2.has` (the mentee's set). -/
def FindMentorshipRequestBetweenMentorMentee (db : DB) (mentorID menteeID : String) :
    Option ReqR × DB × List Op :=
  match db.getUser mentorID with
  | none => (none, db, [Op.getUserDoc mentorID])
  | some mentorData =>
    match mentorData.mentorshipRequests with
    | none => (none, db, [Op.getUserDoc mentorID])
    | some lm =>
      match db.getUser menteeID with
      | none => (none, db, [Op.getUserDoc mentorID, Op.getUserDoc menteeID])
      | some menteeData =>
        match menteeData.mentorshipRequests with
        | none => (none, db, [Op.getUserDoc mentorID, Op.getUserDoc menteeID])
        | some le =>
          let set1 := jsSetOf lm
          let set2 := jsSetOf le
          let iterSet := if set1.length < set2.length then set1 else set2
          let p := findLoop db iterSet set2 mentorID menteeID
          (p.1, p.2.1, [Op.getUserDoc mentorID, Op.getUserDoc menteeID] ++ p.2.2)

/-- The `action == "send"` branch of `handleMentorshipRequest` (after payload
validation): rejects self-requests, requires the target to exist, be a mentor
and be accepting mentees, rejects when the duplicate lookup finds a request,
and otherwise creates the request.  `rid` is the fresh ID `DBCreate` mints. -/
def sendAction (db : DB) (rid selfID mentorID : String) : ActionResult × DB × List Op :=
  if mentorID = selfID then
    (.failMsg "You cannot send yourself a mentorship request.", db, [])
  else
    match db.getUser mentorID with
    | none => (.failMsg "That user does not exist", db, [Op.getUserDoc mentorID])
    | some userRes =>
      if !userRes.isMentor then
        (.failMsg "That user is not a mentor ", db, [Op.getUserDoc mentorID])
      else if !userRes.acceptingMentees then
        (.failMsg "That user is not currently accepting mentees.", db, [Op.getUserDoc mentorID])
      else
        let p := FindMentorshipRequestBetweenMentorMentee db mentorID selfID
        match p.1 with
        | some _ =>
          (.failMsg "You have already sent a request", p.2.1, Op.getUserDoc mentorID :: p.2.2)
        | none =>
          let q := addMentorshipRequest p.2.1 rid mentorID selfID
          (.ok, q.1, Op.getUserDoc mentorID :: p.2.2 ++ q.2)

/-- The `action == "accept"` branch of `handleMentorshipRequest`: requires the
request to exist; a record missing either endpoint is deleted through the
decline path and the action fails; the caller must be the mentor on the
record; then the request is removed with status `accepted` and the
relationship is established by `addMentorship`. -/
def acceptAction (db : DB) (selfID mrID : String) : ActionResult × DB × List Op :=
  match db.getRequest mrID with
  | none =>
    (.failMsg "Action failed, that mentorship request does not exist.", db,
      [Op.getRequestDoc mrID])
  | some reqObj =>
    match reqObj.mentorID, reqObj.menteeID with
    | some mentorID, some menteeID =>
      if mentorID ≠ selfID then
        (.failMsg "You do not have permission to accept this request.", db,
          [Op.getRequestDoc mrID])
      else
        let p := removeMentorshipRequest db mrID "accepted"
        match addMentorship p.1 mentorID menteeID with
        | .error q =>
          (.failMsg "Something went wrong while accepting request", q.1,
            Op.getRequestDoc mrID :: p.2 ++ q.2)
        | .ok q => (.ok, q.1, Op.getRequestDoc mrID :: p.2 ++ q.2)
    | _, _ =>
      let p := removeMentorshipRequest db mrID "declined"
      (.failMsg "There is something wrong with this request. You cannot accept it.", p.1,
        Op.getRequestDoc mrID :: p.2)

/-- The `action == "decline"` branch: like `accept` but the malformed-record
path deletes the record directly with `DBDeleteWithID`, and on success the
request is removed with status `declined` and no relationship is created. -/
def declineAction (db : DB) (selfID mrID : String) : ActionResult × DB × List Op :=
  match db.getRequest mrID with
  | none =>
    (.failMsg "Action failed, that mentorship request does not exist.", db,
      [Op.getRequestDoc mrID])
  | some reqObj =>
    match reqObj.mentorID, reqObj.menteeID with
    | some mentorID, some _ =>
      if mentorID ≠ selfID then
        (.failMsg "You do not have permission to decline this request.", db,
          [Op.getRequestDoc mrID])
      else
        let p := removeMentorshipRequest db mrID "declined"
        (.ok, p.1, Op.getRequestDoc mrID :: p.2)
    | _, _ =>
      (.failMsg "There is something wrong with this request. You cannot decline it.",
        db.deleteRequest mrID, [Op.getRequestDoc mrID, Op.deleteRequestDoc mrID])

/-- The `action == "cancel"` branch: the caller must be the *mentee* on the
record; on success the request is removed with status `cancelled`. -/
def cancelAction (db : DB) (selfID mrID : String) : ActionResult × DB × List Op :=
  match db.getRequest mrID with
  | none =>
    (.failMsg "Action failed, that mentorship request does not exist.", db,
      [Op.getRequestDoc mrID])
  | some reqObj =>
    match reqObj.mentorID, reqObj.menteeID with
    | some _, some menteeID =>
      if menteeID ≠ selfID then
        (.failMsg "You do not have permission to cancel this request.", db,
          [Op.getRequestDoc mrID])
      else
        let p := removeMentorshipRequest db mrID "cancelled"
        (.ok, p.1, Op.getRequestDoc mrID :: p.2)
    | _, _ =>
      (.failMsg "There is something wrong with this request. You cannot cancel it.",
        db.deleteRequest mrID, [Op.getRequestDoc mrID, Op.deleteRequestDoc mrID])

/-! ### Session state machine (`connecting` / `authed_nouser` / `authed_user` /
`connect_error`)

`addUnconditionalEvents` registers a `connect` handler that always re-runs
`_enter_connect_state`, whatever the current state; the `createUser` handler
is installed only in `authed_nouser` (handlers are cleaned up on every
transition).  A `connect` event resolves identity through the gateway: on a
query error the state becomes `connect_error` and the socket is disconnected;
on an empty result, `authed_nouser`; on a hit, `authed_user`. -/

inductive SessState where
  | connecting
  | authed_nouser
  | authed_user
  | connect_error
  deriving Repr, DecidableEq

/-- Outcome of the identity query `DBGet("user", [["OAuthSubID", "==", sub]])`
performed by `_enter_connect_state`. -/
inductive QueryOutcome where
  | qerror
  | qempty
  | qfound
  deriving Repr, DecidableEq

/-- A connection-lifecycle event: a transport `connect` (with the outcome its
identity query will produce) or a `createUser` command (with the outcome of
its validation and creation). -/
inductive SessEvent where
  | connectEv (q : QueryOutcome)
  | createUserEv (success : Bool)
  deriving Repr, DecidableEq

/-- The state `_enter_connect_state` lands in for each query outcome. -/
def resolveConnect : QueryOutcome → SessState
  | .qerror => .connect_error
  | .qempty => .authed_nouser
  | .qfound => .authed_user

/-- One step of the session state machine: `connect` re-resolves from any
state (the handler is unconditional); `createUser` is only handled in
`authed_nouser`, where success enters `authed_user`. -/
def sessStep (s : SessState) : SessEvent → SessState
  | .connectEv q => resolveConnect q
  | .createUserEv ok =>
    match s, ok with
    | .authed_nouser, true => .authed_user
    | _, _ => s

/-- A run of the session state machine over a sequence of events. -/
def sessRun (s : SessState) (evs : List SessEvent) : SessState :=
  evs.foldl sessStep s

/-! ### Mentor Availability Index maintenance in `handleUpdateProfile`

After the profile write, the handler computes
`isAcceptingMentor = (this.user.acceptingMentees || acceptingMentees) &&
(this.user.isMentor || isMentor)` — `this.user.*` are the *pre-update* flags
and `acceptingMentees` / `isMentor` the payload values (possibly `undefined`)
— and adds itself to `AllAcceptingMentorIDs` when it is truthy, else removes
itself when `!isMentor || !acceptingMentees`. -/

/-- JS truthiness of an optional boolean payload field (`undefined` is
falsy; non-boolean values were rejected by the earlier validation). -/
def jsTruthyOpt (o : Option Bool) : Bool := o.getD false

/-- The value a boolean user field has after `DBSetWithID(..., merge)` with a
payload that either sets it (`some b`) or omits it (`none`). -/
def mergedFlag (old : Bool) (p : Option Bool) : Bool := p.getD old

/-- What `handleUpdateProfile` does to the process-wide accepting-mentor set. -/
inductive IndexAction where
  | addSelf
  | removeSelf
  deriving Repr, DecidableEq

/-- The decision taken by `handleUpdateProfile` after a successful write,
translated from the `isAcceptingMentor` computation: `oldIsMentor` /
`oldAccepting` are the refreshed pre-update flags, `pIsMentor` / `pAccepting`
the payload fields.  (When `isAcceptingMentor` is falsy the `else if` guard
`!isMentor || !acceptingMentees` always holds, so the two constructors are
exhaustive.) -/
def updateProfileIndexAction (oldIsMentor oldAccepting : Bool)
    (pIsMentor pAccepting : Option Bool) : IndexAction :=
  let isAcceptingMentor :=
    (oldAccepting || jsTruthyOpt pAccepting) && (oldIsMentor || jsTruthyOpt pIsMentor)
  if isAcceptingMentor then .addSelf
  else .removeSelf

/-- Applying the decision to the `AllAcceptingMentorIDs` set (kept as a
deduplicated list). -/
def applyIndexAction (s : List String) (i : String) : IndexAction → List String
  | .addSelf => jsSetInsert s i
  | .removeSelf => listErase s i

/-! ### Authenticated command handlers as operation traces

Each handler is modelled as the ordered list of gateway / socket operations it
performs (together with the states it returns).  External validators are
abstracted to boolean outcomes; `hasCallback` is whether the client supplied
an invocable completion callback. -/

/-- `_updateSelf`: re-reads the session user's document.  When the record is
missing it emits an error message and disconnects — and then *returns*, so
the calling handler continues with the stale snapshot. -/
def updateSelfTrace (db : DB) (selfID : String) : Option UserR × List Op :=
  match db.getUser selfID with
  | none => (none, [Op.getUserDoc selfID, Op.emitMessage "Error", Op.disconnectSocket])
  | some u => (some u, [Op.getUserDoc selfID])

/-- The mentorship-request actions named in a `mentorshipRequest` payload. -/
inductive MRAction where
  | send
  | accept
  | decline
  | cancel
  | removeMentor
  | removeMentee
  deriving Repr, DecidableEq

/-- A structurally valid `mentorshipRequest` payload (fields present are
strings; absent fields are `none`). -/
structure MRPayload where
  action : MRAction
  mentorID : Option String := none
  mentorshipRequestID : Option String := none
  menteeID : Option String := none
  deriving Repr, DecidableEq

/-- `removeMentor`: requires the refreshed user to have a `mentorID`, then
removes the relationship symmetrically via `removeMentorship`. -/
def removeMentorAction (db : DB) (selfUser : UserR) (selfID : String) :
    ActionResult × DB × List Op :=
  match selfUser.mentorID with
  | none => (.failMsg "You do not have a mentor", db, [])
  | some mID =>
    match removeMentorship db mID selfID with
    | .ok q => (.ok, q.1, q.2)
    | .error q => (.failMsg "Encountered error while removing mentorship", q.1, q.2)

/-- `removeMentee`: requires the target to be in the caller's `menteeIDs`,
then removes the relationship symmetrically. -/
def removeMenteeAction (db : DB) (selfUser : UserR) (selfID : String)
    (targetMenteeID : Option String) : ActionResult × DB × List Op :=
  match selfUser.menteeIDs with
  | none => (.failMsg "You do not have mentees", db, [])
  | some lst =>
    match targetMenteeID with
    | some t =>
      if t ∈ lst then
        match removeMentorship db selfID t with
        | .ok q => (.ok, q.1, q.2)
        | .error q => (.failMsg "Encountered error while removing mentorship", q.1, q.2)
      else (.failMsg "That is not one of your mentees.", db, [])
    | none => (.failMsg "That is not one of your mentees.", db, [])

/-- Dispatch of a validated `mentorshipRequest` payload to its action branch.
Branches whose required ID field is absent pass `undefined` to the gateway in
the source; these degenerate paths are modelled as a plain failure. -/
def mentorshipRequestDispatch (db : DB) (selfUser : UserR) (selfID freshID : String)
    (p : MRPayload) : ActionResult × DB × List Op :=
  match p.action, p.mentorID, p.mentorshipRequestID with
  | .send, some m, _ => sendAction db freshID selfID m
  | .accept, _, some rID => acceptAction db selfID rID
  | .decline, _, some rID => declineAction db selfID rID
  | .cancel, _, some rID => cancelAction db selfID rID
  | .removeMentor, _, _ => removeMentorAction db selfUser selfID
  | .removeMentee, _, _ => removeMenteeAction db selfUser selfID p.menteeID
  | _, _, _ => (.failMsg "Action failed, that mentorship request does not exist.", db, [])

/-- The body of `handleMentorshipRequest` after the self refresh: checks the
callback (error message only), then the payload (`ErrorCallback` sends the
message before invoking the callback in this handler), then dispatches. -/
def mentorshipRequestCore (db : DB) (selfUser : UserR) (selfID freshID : String)
    (hasCallback : Bool) (payload : Option MRPayload) : DB × List Op :=
  if !hasCallback then (db, [Op.emitMessage "Error"])
  else
    match payload with
    | none => (db, [Op.emitMessage "Error", Op.invokeCallback])
    | some p =>
      let q := mentorshipRequestDispatch db selfUser selfID freshID p
      match q.1 with
      | .ok => (q.2.1, q.2.2 ++ [Op.invokeCallback])
      | .failMsg _ => (q.2.1, q.2.2 ++ [Op.emitMessage "Error", Op.invokeCallback])

/-- `handleMentorshipRequest`: refreshes the self snapshot first, then runs
the body. -/
def handleMentorshipRequestTrace (db : DB) (sessUser : UserR) (selfID freshID : String)
    (hasCallback : Bool) (payload : Option MRPayload) : DB × List Op :=
  let p0 := updateSelfTrace db selfID
  let core := mentorshipRequestCore db (p0.1.getD sessUser) selfID freshID hasCallback payload
  (core.1, p0.2 ++ core.2)

/-- `handleUpdateProfile`: refreshes the self snapshot first; missing callback
emits only the message; missing payload invokes the callback with `false`
then emits; invalid fields (external validators) emit then invoke; on success
one merge-write of the profile document is performed. -/
def handleUpdateProfileTrace (db : DB) (selfID : String)
    (hasCallback payloadGiven payloadValid : Bool) : List Op :=
  (updateSelfTrace db selfID).2 ++
  (if !hasCallback then [Op.emitMessage "Error"]
   else if !payloadGiven then [Op.invokeCallback, Op.emitMessage "Error"]
   else if !payloadValid then [Op.emitMessage "Error", Op.invokeCallback]
   else [Op.setUserDoc selfID, Op.invokeCallback])

/-- `handleGetAllMentors`: refreshes the self snapshot first, then fetches
every ID in the process-wide accepting-mentor index. -/
def handleGetAllMentorsTrace (db : DB) (selfID : String) (hasCallback : Bool)
    (mentorIndex : List String) : List Op :=
  (updateSelfTrace db selfID).2 ++
  (if !hasCallback then [Op.emitMessage "Error"]
   else mentorIndex.map Op.getUserDoc ++ [Op.invokeCallback])

/-- The assessment actions of a `submitAssessment` payload. -/
inductive AssessAction where
  | create
  | edit
  | delete
  | publish
  | unpublish
  deriving Repr, DecidableEq

/-- A structurally valid `submitAssessment` payload; `questionsValid` is the
outcome of the external `isValidAnsweredAssessmentQuestions` validator. -/
structure AssessPayload where
  action : AssessAction
  id : Option String := none
  questionsValid : Bool := true
  deriving Repr, DecidableEq

/-- The `publish` / `unpublish` branches of `handleSubmitAssessment`. -/
def assessPublishBranch (db : DB) (selfID : String) (assessList : List String)
    (pid : Option String) (target : Bool) :
    ActionResult × DB × List String × List Op :=
  match pid with
  | none => (.failMsg "ID was not provided", db, assessList, [])
  | some aid =>
    match db.getAssessment aid with
    | none =>
      (.failMsg "You cannot publish this assessment, as it does not exist, or does not belong to you.",
        db, assessList, [Op.getAssessmentDoc aid])
    | some a =>
      if a.userID ≠ some selfID then
        (.failMsg "You cannot publish this assessment, as it does not exist, or does not belong to you.",
          db, assessList, [Op.getAssessmentDoc aid])
      else if a.published = target then
        (.failMsg "You cannot change this assessment, as it is already in that state.",
          db, assessList, [Op.getAssessmentDoc aid])
      else
        (.ok, db.setAssessment aid (fun x => { x with published := target }), assessList,
          [Op.getAssessmentDoc aid, Op.setAssessmentDoc aid])

/-- The body of `handleSubmitAssessment` after the self refresh and the
normalisation of a missing in-memory `assessments` array to `[]`: checks
callback and payload (`ErrorCallback` here invokes the callback with `false`
*before* sending the message), then dispatches.  `create` writes the owner's
user document (`isMentee`, `assessments`); `delete` deletes the standalone
record and only splices the session's in-memory array — no user-document
write.  (`create` and `edit` fall through to the trailing `callback(true)`,
so their callback is invoked twice.)  The returned `List String` is the
session's in-memory `assessments` array afterwards. -/
def submitAssessmentCore (db : DB) (selfID freshAID : String) (assessList : List String)
    (hasCallback : Bool) (payload : Option AssessPayload) :
    Option ActionResult × DB × List String × List Op :=
  if !hasCallback then (none, db, assessList, [Op.emitMessage "Error"])
  else
    match payload with
    | none =>
      (some (.failMsg "Data is invalid."), db, assessList,
        [Op.invokeCallback, Op.emitMessage "Error"])
    | some p =>
      match p.action with
      | .create =>
        if !p.questionsValid then
          (some (.failMsg "Questions are not valid"), db, assessList,
            [Op.invokeCallback, Op.emitMessage "Error"])
        else
          let db1 := db.createAssessment freshAID { userID := some selfID, published := false }
          let newList := assessList ++ [freshAID]
          let db2 := db1.setUser selfID
            (fun v => { v with isMentee := true, assessments := some newList })
          (some .ok, db2, newList,
            [Op.createAssessmentDoc freshAID, Op.setUserDoc selfID,
              Op.invokeCallback, Op.invokeCallback])
      | .edit =>
        match p.id with
        | none =>
          (some (.failMsg "ID was not provided"), db, assessList,
            [Op.invokeCallback, Op.emitMessage "Error"])
        | some aid =>
          if !p.questionsValid then
            (some (.failMsg "Questions are not valid"), db, assessList,
              [Op.invokeCallback, Op.emitMessage "Error"])
          else
            match db.getAssessment aid with
            | none =>
              (some (.failMsg "You cannot edit this assessment, as it does not exist, or does not belong to you."),
                db, assessList, [Op.getAssessmentDoc aid, Op.invokeCallback, Op.emitMessage "Error"])
            | some a =>
              if a.userID ≠ some selfID then
                (some (.failMsg "You cannot edit this assessment, as it does not exist, or does not belong to you."),
                  db, assessList, [Op.getAssessmentDoc aid, Op.invokeCallback, Op.emitMessage "Error"])
              else
                (some .ok, db.setAssessment aid (fun x => x), assessList,
                  [Op.getAssessmentDoc aid, Op.setAssessmentDoc aid,
                    Op.invokeCallback, Op.invokeCallback])
      | .delete =>
        match p.id with
        | none =>
          (some (.failMsg "ID was not provided"), db, assessList,
            [Op.invokeCallback, Op.emitMessage "Error"])
        | some aid =>
          match db.getAssessment aid with
          | none =>
            (some (.failMsg "You cannot delete this assessment, as it does not exist, or does not belong to you."),
              db, assessList, [Op.getAssessmentDoc aid, Op.invokeCallback, Op.emitMessage "Error"])
          | some a =>
            if a.userID ≠ some selfID then
              (some (.failMsg "You cannot delete this assessment, as it does not exist, or does not belong to you."),
                db, assessList, [Op.getAssessmentDoc aid, Op.invokeCallback, Op.emitMessage "Error"])
            else
              let db1 := db.deleteAssessment aid
              let newList := jsSpliceOne assessList aid
              (some .ok, db1, newList,
                [Op.getAssessmentDoc aid, Op.deleteAssessmentDoc aid, Op.invokeCallback])
      | .publish =>
        let q := assessPublishBranch db selfID assessList p.id true
        match q.1 with
        | .ok => (some .ok, q.2.1, q.2.2.1, q.2.2.2 ++ [Op.invokeCallback])
        | .failMsg m =>
          (some (.failMsg m), q.2.1, q.2.2.1, q.2.2.2 ++ [Op.invokeCallback, Op.emitMessage "Error"])
      | .unpublish =>
        let q := assessPublishBranch db selfID assessList p.id false
        match q.1 with
        | .ok => (some .ok, q.2.1, q.2.2.1, q.2.2.2 ++ [Op.invokeCallback])
        | .failMsg m =>
          (some (.failMsg m), q.2.1, q.2.2.1, q.2.2.2 ++ [Op.invokeCallback, Op.emitMessage "Error"])

/-- `handleSubmitAssessment` assembled: self refresh, in-memory normalisation,
then the body. -/
def handleSubmitAssessmentModel (db : DB) (sessUser : UserR) (selfID freshAID : String)
    (hasCallback : Bool) (payload : Option AssessPayload) :
    Option ActionResult × DB × List String × List Op :=
  let p0 := updateSelfTrace db selfID
  let u := p0.1.getD sessUser
  let core := submitAssessmentCore db selfID freshAID ((u.assessments).getD []) hasCallback payload
  (core.1, core.2.1, core.2.2.1, p0.2 ++ core.2.2.2)

/-- `GetUserData(targetUserID, requestingUserID)`: fetches the target
(throwing when absent, modelled as `false`), and with a requesting user also
fetches that record before filtering fields. -/
def getUserDataTrace (db : DB) (targetID : String) (requestingID : Option String) :
    Bool × List Op :=
  match db.getUser targetID with
  | none => (false, [Op.getUserDoc targetID])
  | some _ =>
    match requestingID with
    | none => (true, [Op.getUserDoc targetID])
    | some rID =>
      match db.getUser rID with
      | none => (false, [Op.getUserDoc targetID, Op.getUserDoc rID])
      | some _ => (true, [Op.getUserDoc targetID, Op.getUserDoc rID])

/-- The body of `_getUser` after the self refresh: checks the callback and
the `userID` argument, then calls `GetUserData`. -/
def getUserCore (db : DB) (selfID : String) (hasCallback : Bool)
    (targetID : Option String) : List Op :=
  if !hasCallback then [Op.emitMessage "Error"]
  else match targetID with
  | none => [Op.emitMessage "Error", Op.invokeCallback]
  | some t =>
    let q := getUserDataTrace db t (some selfID)
    if q.1 then q.2 ++ [Op.invokeCallback]
    else q.2 ++ [Op.emitMessage "Error", Op.invokeCallback]

/-- `_getUser`: refreshes the self snapshot first, then runs the body. -/
def handleGetUserTrace (db : DB) (selfID : String) (hasCallback : Bool)
    (targetID : Option String) : List Op :=
  (updateSelfTrace db selfID).2 ++ getUserCore db selfID hasCallback targetID

/-- `GetAssessmentData(assessmentID, requestingUserID)`: fetches the
assessment (throwing when absent), returns it to its owner, and otherwise
fetches the requesting user to check the mentor relationship. -/
def getAssessmentDataTrace (db : DB) (aid : String) (requestingID : Option String) :
    Bool × List Op :=
  match db.getAssessment aid with
  | none => (false, [Op.getAssessmentDoc aid])
  | some a =>
    match requestingID with
    | none => (true, [Op.getAssessmentDoc aid])
    | some rID =>
      if a.userID = some rID then (true, [Op.getAssessmentDoc aid])
      else
        match db.getUser rID with
        | none => (false, [Op.getAssessmentDoc aid, Op.getUserDoc rID])
        | some ru =>
          match a.userID, ru.menteeIDs with
          | some owner, some lst =>
            if owner ∈ lst then (true, [Op.getAssessmentDoc aid, Op.getUserDoc rID])
            else (false, [Op.getAssessmentDoc aid, Op.getUserDoc rID])
          | _, _ => (false, [Op.getAssessmentDoc aid, Op.getUserDoc rID])

/-- The body of `_getAssessment` after the self refresh: checks the callback
and the `assessmentID` argument, then calls `GetAssessmentData`. -/
def getAssessmentCore (db : DB) (selfID : String) (hasCallback : Bool)
    (aid : Option String) : List Op :=
  if !hasCallback then [Op.emitMessage "Error"]
  else match aid with
  | none => [Op.emitMessage "Error", Op.invokeCallback]
  | some a =>
    let q := getAssessmentDataTrace db a (some selfID)
    if q.1 then q.2 ++ [Op.invokeCallback]
    else q.2 ++ [Op.emitMessage "Error", Op.invokeCallback]

/-- `_getAssessment`: refreshes the self snapshot first, then runs the body. -/
def handleGetAssessmentTrace (db : DB) (selfID : String) (hasCallback : Bool)
    (aid : Option String) : List Op :=
  (updateSelfTrace db selfID).2 ++ getAssessmentCore db selfID hasCallback aid

/-- Whether a handler ran to completion or threw out of its body (a rejected
promise escaping to the socket library). -/
inductive HandlerOutcome where
  | completed
  | threw
  deriving Repr, DecidableEq

/-- `handleGetAvailableAssessmentQuestions`: performs *no* self re-read.  Its
local `SendErrorMessage` is declared with `function` (not an arrow), so its
`this` is undefined and calling it throws a `TypeError` before any message is
emitted; on the no-callback path that throw is swallowed by the outer empty
`catch`, so nothing at all is emitted. -/
def handleGetAvailableAssessmentQuestionsTrace (hasCallback : Bool) :
    HandlerOutcome × List Op :=
  if !hasCallback then (.completed, [])
  else (.completed, [Op.queryAssessmentQuestions, Op.invokeCallback])

/-- `getMentorshipRequestBetweenUsers`: performs *no* self re-read.  Its local
`SendErrorMessage` is a plain `function` with undefined `this`, so every call
to it throws; on the no-callback path the first throw is caught and the
`catch` block calls it again, and that second throw escapes the handler (the
returned promise rejects) with no message emitted.  On the invalid-argument
path the callback is invoked with `false` and then the same double throw
escapes. -/
def getFindMentorshipRequestBetweenUsersTrace (db : DB) (hasCallback : Bool)
    (mentorID menteeID : Option String) : HandlerOutcome × DB × List Op :=
  if !hasCallback then (.threw, db, [])
  else
    match mentorID, menteeID with
    | some m, some e =>
      let p := FindMentorshipRequestBetweenMentorMentee db m e
      (.completed, p.2.1, p.2.2 ++ [Op.invokeCallback])
    | _, _ => (.threw, db, [Op.invokeCallback])

/-! ### Concrete scenario states used by specific theorems -/

/-- A fresh mentee-mentor pair with exactly one pending request: mentee `a`
has sent request `rid` to mentor `b`. -/
def freshPairDB (a b rid : String) : DB :=
  { users :=
      [(a, { isMentee := true, mentorshipRequests := some [rid] }),
       (b, { isMentor := true, acceptingMentees := true, mentorshipRequests := some [rid] })],
    requests := [(rid, { mentorID := some b, menteeID := some a })] }

/-- Mentor `m` and mentee `e` whose `mentorshipRequests` lists share the ID
`d`, for which no standalone record exists (a dangling back-reference on both
sides). -/
def sharedDanglingDB : DB :=
  { users :=
      [("m", { isMentor := true, acceptingMentees := true, mentorshipRequests := some ["d"] }),
       ("e", { mentorshipRequests := some ["d"] })],
    requests := [] }

/-- Mentor `m` and mentee `e` with a *reverse-orientation* pending request
`x`: its record names `e` as the mentor and `m` as the mentee. -/
def reverseRequestDB : DB :=
  { users :=
      [("m", { isMentor := true, acceptingMentees := true, mentorshipRequests := some ["x"] }),
       ("e", { mentorshipRequests := some ["x"] })],
    requests := [("x", { mentorID := some "e", menteeID := some "m" })] }

/-- Mentor `m` holds request IDs `a`, `b`; mentee `e` holds only `c`, whose
record exists but belongs to another mentor, so `c` is *not* in the
intersection of the two lists. -/
def menteeOnlyIdDB : DB :=
  { users :=
      [("m", { mentorshipRequests := some ["a", "b"] }),
       ("e", { mentorshipRequests := some ["c"] })],
    requests := [("c", { mentorID := some "z", menteeID := some "e" })] }

/-- Mentor `m` holds the dangling ID `d` followed by an unrelated ID `x`;
mentee `e` holds only `d`.  No standalone records exist. -/
def danglingWithTailDB : DB :=
  { users :=
      [("m", { mentorshipRequests := some ["d", "x"] }),
       ("e", { mentorshipRequests := some ["d"] })],
    requests := [] }

/-- Mentor `m` and mentee `e` sharing the single pending request `x`, whose
record matches the (m, e) orientation exactly. -/
def matchingRequestDB : DB :=
  { users :=
      [("m", { mentorshipRequests := some ["x"] }),
       ("e", { mentorshipRequests := some ["x"] })],
    requests := [("x", { mentorID := some "m", menteeID := some "e" })] }

/-- Mentor `m` and mentee `e` sharing the single pending request `q`, whose
record points at a different mentee, so the duplicate lookup finds no match
and heals nothing. -/
def cleanPairDB : DB :=
  { users :=
      [("m", { isMentor := true, acceptingMentees := true, mentorshipRequests := some ["q"] }),
       ("e", { mentorshipRequests := some ["q"] })],
    requests := [("q", { mentorID := some "m", menteeID := some "z" })] }

/-- Two users with empty request lists; mentor `m` accepts mentees. -/
def emptyPairDB : DB :=
  { users :=
      [("m", { isMentor := true, acceptingMentees := true, mentorshipRequests := some [] }),
       ("e", { mentorshipRequests := some [] })],
    requests := [] }

/-- A user owning one assessment `k`, plus the standalone assessment record. -/
def assessOwnerDB : DB :=
  { users := [("s", { assessments := some ["k", "w"] })],
    assessmentDocs := [("k", { userID := some "s" }), ("w", { userID := some "s" })] }

/-- Mentor `m` holds only the dangling ID `d`; mentee `e` holds `d` plus an
ID `k` of their own.  No standalone records exist. -/
def danglingWitnessDB : DB :=
  { users :=
      [("m", { mentorshipRequests := some ["d"] }),
       ("e", { mentorshipRequests := some ["d", "k"] })],
    requests := [] }

/-! ## Basic lemmas about the collection and JS-array models -/

theorem alookup_aset {α : Type} (l : AList α) (i j : String) (f : α → α) :
    alookup (aset l i f) j = if j = i then (alookup l j).map f else alookup l j := by
  induction l with
  | nil => by_cases h : j = i <;> simp [alookup, aset, h]
  | cons p rest ih =>
    obtain ⟨k, v⟩ := p
    by_cases hki : k = i
    · subst hki
      by_cases hkj : k = j
      · subst hkj
        simp [alookup, aset]
      · simp [alookup, aset, hkj, Ne.symm hkj, ih]
    · by_cases hkj : k = j
      · subst hkj
        have hji : ¬ k = i := hki
        simp [alookup, aset, hki, hji]
      · simp [alookup, aset, hki, hkj, ih]

theorem alookup_adelete {α : Type} (l : AList α) (i j : String) :
    alookup (adelete l i) j = if j = i then none else alookup l j := by
  induction l with
  | nil => by_cases h : j = i <;> simp [alookup, adelete, h]
  | cons p rest ih =>
    obtain ⟨k, v⟩ := p
    by_cases hki : k = i
    · subst hki
      by_cases hkj : k = j
      · subst hkj
        simp [alookup, adelete, ih]
      · simp [alookup, adelete, hkj, ih]
    · by_cases hkj : k = j
      · subst hkj
        have hji : ¬ k = i := hki
        simp [alookup, adelete, hki, hji]
      · simp [alookup, adelete, hki, hkj, ih]

theorem alookup_append {α : Type} (l1 l2 : AList α) (j : String) :
    alookup (l1 ++ l2) j =
      match alookup l1 j with
      | some v => some v
      | none => alookup l2 j := by
  induction l1 with
  | nil => simp [alookup]
  | cons p rest ih =>
    obtain ⟨k, v⟩ := p
    by_cases hkj : k = j <;> simp [alookup, hkj, ih]

theorem adelete_append {α : Type} (l1 l2 : AList α) (i : String) :
    adelete (l1 ++ l2) i = adelete l1 i ++ adelete l2 i := by
  induction l1 with
  | nil => simp [adelete]
  | cons p rest ih =>
    obtain ⟨k, v⟩ := p
    by_cases hki : k = i <;> simp [adelete, hki, ih]

theorem adelete_of_alookup_none {α : Type} (l : AList α) (i : String)
    (h : alookup l i = none) : adelete l i = l := by
  induction l with
  | nil => simp [adelete]
  | cons p rest ih =>
    obtain ⟨k, v⟩ := p
    by_cases hki : k = i
    · subst hki
      simp [alookup] at h
    · simp [alookup, hki] at h
      simp [adelete, hki, ih h]

theorem firstIdx_append_self (l : List String) (x : String) (h : x ∉ l) :
    firstIdx (l ++ [x]) x = some l.length := by
  induction l with
  | nil => simp [firstIdx]
  | cons y rest ih =>
    have hyx : ¬ y = x := by
      intro hxy
      exact h (hxy ▸ List.mem_cons_self y rest)
    have hrest : x ∉ rest := fun hm => h (List.mem_cons_of_mem y hm)
    simp [firstIdx, hyx, ih hrest]

theorem take_length_append {α : Type} (l1 l2 : List α) : (l1 ++ l2).take l1.length = l1 := by
  induction l1 with
  | nil => simp
  | cons y rest ih => simp [ih]

theorem jsSpliceAllFrom_append (l : List String) (x : String) (h : x ∉ l) :
    jsSpliceAllFrom (l ++ [x]) x = l := by
  rw [jsSpliceAllFrom, firstIdx_append_self l x h]
  exact take_length_append l [x]

theorem mem_jsSetInsert (s : List String) (x y : String) :
    y ∈ jsSetInsert s x ↔ y ∈ s ∨ y = x := by
  rw [jsSetInsert]
  by_cases hx : x ∈ s
  · simp only [if_pos hx]
    constructor
    · exact Or.inl
    · rintro (h | rfl)
      · exact h
      · exact hx
  · simp [if_neg hx]

theorem mem_foldl_jsSetInsert (l : List String) :
    ∀ (acc : List String) (y : String), y ∈ l.foldl jsSetInsert acc ↔ y ∈ acc ∨ y ∈ l := by
  induction l with
  | nil => intro acc y; simp
  | cons x rest ih =>
    intro acc y
    rw [List.foldl_cons, ih, mem_jsSetInsert, List.mem_cons]
    tauto

theorem mem_jsSetOf (l : List String) (y : String) : y ∈ jsSetOf l ↔ y ∈ l := by
  rw [jsSetOf, mem_foldl_jsSetInsert]
  simp

theorem jsSetInsert_nodup (s : List String) (x : String) (h : s.Nodup) :
    (jsSetInsert s x).Nodup := by
  rw [jsSetInsert]
  by_cases hx : x ∈ s
  · simpa [if_pos hx]
  · simp [if_neg hx, List.nodup_append, h, hx]

theorem foldl_jsSetInsert_nodup (l : List String) :
    ∀ (acc : List String), acc.Nodup → (l.foldl jsSetInsert acc).Nodup := by
  induction l with
  | nil => intro acc h; simpa
  | cons x rest ih =>
    intro acc h
    exact ih (jsSetInsert acc x) (jsSetInsert_nodup acc x h)

theorem jsSetOf_nodup (l : List String) : (jsSetOf l).Nodup :=
  foldl_jsSetInsert_nodup l [] List.nodup_nil

/-! ## Projection lemmas for the gateway model -/

theorem getUser_setUser (db : DB) (i j : String) (f : UserR → UserR) :
    (db.setUser i f).getUser j = if j = i then (db.getUser j).map f else db.getUser j :=
  alookup_aset db.users i j f

theorem getUser_setUser_self (db : DB) (i : String) (f : UserR → UserR) (u : UserR)
    (h : db.getUser i = some u) : (db.setUser i f).getUser i = some (f u) := by
  rw [getUser_setUser, if_pos rfl, h, Option.map_some']

theorem getUser_setUser_ne (db : DB) (i j : String) (f : UserR → UserR) (h : j ≠ i) :
    (db.setUser i f).getUser j = db.getUser j := by
  rw [getUser_setUser, if_neg h]

theorem requests_setUser (db : DB) (i : String) (f : UserR → UserR) :
    (db.setUser i f).requests = db.requests := rfl

theorem getRequest_setUser (db : DB) (i : String) (f : UserR → UserR) (j : String) :
    (db.setUser i f).getRequest j = db.getRequest j := rfl

theorem users_deleteRequest (db : DB) (i : String) :
    (db.deleteRequest i).users = db.users := rfl

theorem getUser_deleteRequest (db : DB) (i j : String) :
    (db.deleteRequest i).getUser j = db.getUser j := rfl

theorem getRequest_deleteRequest (db : DB) (i j : String) :
    (db.deleteRequest i).getRequest j = if j = i then none else db.getRequest j :=
  alookup_adelete db.requests i j

theorem getUser_createRequest (db : DB) (i : String) (r : ReqR) (j : String) :
    (db.createRequest i r).getUser j = db.getUser j := rfl

theorem getRequest_createRequest (db : DB) (i : String) (r : ReqR) (j : String) :
    (db.createRequest i r).getRequest j =
      match db.getRequest j with
      | some v => some v
      | none => if i = j then some r else none := by
  show alookup (db.requests ++ [(i, r)]) j = _
  rw [alookup_append]
  rcases h : alookup db.requests j with _ | v <;>
    simp [DB.getRequest, h, alookup]

theorem getRequest_createRequest_self (db : DB) (i : String) (r : ReqR)
    (h : db.getRequest i = none) : (db.createRequest i r).getRequest i = some r := by
  rw [getRequest_createRequest, h]
  simp

theorem getRequest_createRequest_ne (db : DB) (i : String) (r : ReqR) (j : String)
    (h : j ≠ i) : (db.createRequest i r).getRequest j = db.getRequest j := by
  rw [getRequest_createRequest]
  rcases hj : db.getRequest j with _ | v <;> simp [Ne.symm h]

theorem users_deleteAssessment (db : DB) (i : String) :
    (db.deleteAssessment i).users = db.users := rfl

theorem getUser_deleteAssessment (db : DB) (i j : String) :
    (db.deleteAssessment i).getUser j = db.getUser j := rfl

theorem getAssessment_deleteAssessment (db : DB) (i j : String) :
    (db.deleteAssessment i).getAssessment j = if j = i then none else db.getAssessment j :=
  alookup_adelete db.assessmentDocs i j

/-! ## Specification lemmas for the request-engine helpers -/

theorem rmrfu_requests (db : DB) (mrID userID : String) :
    (removeMentorshipRequestFromUser db mrID userID).1.requests = db.requests := by
  rcases hu : db.getUser userID with _ | u
  · simp [removeMentorshipRequestFromUser, hu]
  · rcases hl : u.mentorshipRequests with _ | l <;>
      simp [removeMentorshipRequestFromUser, hu, hl, DB.setUser]

theorem rmrfu_getRequest (db : DB) (mrID userID j : String) :
    (removeMentorshipRequestFromUser db mrID userID).1.getRequest j = db.getRequest j := by
  show alookup (removeMentorshipRequestFromUser db mrID userID).1.requests j = _
  rw [rmrfu_requests]
  rfl

theorem rmrfu_assessments (db : DB) (mrID userID : String) :
    (removeMentorshipRequestFromUser db mrID userID).1.assessmentDocs = db.assessmentDocs := by
  rcases hu : db.getUser userID with _ | u
  · simp [removeMentorshipRequestFromUser, hu]
  · rcases hl : u.mentorshipRequests with _ | l <;>
      simp [removeMentorshipRequestFromUser, hu, hl, DB.setUser]

theorem rmrfu_getUser_ne (db : DB) (mrID userID j : String) (h : j ≠ userID) :
    (removeMentorshipRequestFromUser db mrID userID).1.getUser j = db.getUser j := by
  rcases hu : db.getUser userID with _ | u
  · simp [removeMentorshipRequestFromUser, hu]
  · rcases hl : u.mentorshipRequests with _ | l
    · simp [removeMentorshipRequestFromUser, hu, hl]
    · have : (db.setUser userID
          (fun v => { v with mentorshipRequests := some (jsSpliceAllFrom l mrID) })).getUser j
          = db.getUser j := getUser_setUser_ne db userID j _ h
      simpa [removeMentorshipRequestFromUser, hu, hl] using this

theorem rmrfu_getUser_self (db : DB) (mrID userID : String) (u : UserR) (l : List String)
    (hu : db.getUser userID = some u) (hl : u.mentorshipRequests = some l) :
    (removeMentorshipRequestFromUser db mrID userID).1.getUser userID =
      some { u with mentorshipRequests := some (jsSpliceAllFrom l mrID) } := by
  have : (db.setUser userID
      (fun v => { v with mentorshipRequests := some (jsSpliceAllFrom l mrID) })).getUser userID
      = some { u with mentorshipRequests := some (jsSpliceAllFrom l mrID) } :=
    getUser_setUser_self db userID _ u hu
  simpa [removeMentorshipRequestFromUser, hu, hl] using this

theorem rmr_requests_of_found (db : DB) (mrID st : String) (r : ReqR)
    (hr : db.getRequest mrID = some r) :
    (removeMentorshipRequest db mrID st).1.requests = adelete db.requests mrID := by
  rw [removeMentorshipRequest, hr]
  rcases r with ⟨rm, re⟩
  rcases rm with _ | mID <;> rcases re with _ | eID
  · rfl
  · rfl
  · rfl
  · show (removeMentorshipRequestFromUser
        (removeMentorshipRequestFromUser (db.deleteRequest mrID) mrID mID).1
        mrID eID).1.requests = adelete db.requests mrID
    rw [rmrfu_requests, rmrfu_requests]
    rfl

theorem rmr_getRequest_self (db : DB) (mrID st : String) (r : ReqR)
    (hr : db.getRequest mrID = some r) :
    (removeMentorshipRequest db mrID st).1.getRequest mrID = none := by
  show alookup (removeMentorshipRequest db mrID st).1.requests mrID = none
  rw [rmr_requests_of_found db mrID st r hr, alookup_adelete]
  simp

theorem rmr_getRequest_ne (db : DB) (mrID st j : String) (h : j ≠ mrID) :
    (removeMentorshipRequest db mrID st).1.getRequest j = db.getRequest j := by
  rcases hr : db.getRequest mrID with _ | r
  · rw [removeMentorshipRequest, hr]
  · show alookup (removeMentorshipRequest db mrID st).1.requests j = _
    rw [rmr_requests_of_found db mrID st r hr, alookup_adelete, if_neg h]
    rfl

theorem rmr_spec (db : DB) (mrID st mID eID : String) (mu eu : UserR) (lm le : List String)
    (hne : mID ≠ eID)
    (hr : db.getRequest mrID = some { mentorID := some mID, menteeID := some eID })
    (hm : db.getUser mID = some mu) (hml : mu.mentorshipRequests = some lm)
    (he : db.getUser eID = some eu) (hel : eu.mentorshipRequests = some le) :
    (removeMentorshipRequest db mrID st).1.getUser mID =
        some { mu with mentorshipRequests := some (jsSpliceAllFrom lm mrID) }
    ∧ (removeMentorshipRequest db mrID st).1.getUser eID =
        some { eu with mentorshipRequests := some (jsSpliceAllFrom le mrID) }
    ∧ (removeMentorshipRequest db mrID st).1.getRequest mrID = none
    ∧ Op.broadcast [mID, eID] "mentorshipRequest" (some st) ∈
        (removeMentorshipRequest db mrID st).2
    ∧ (∀ v, v ≠ mID → v ≠ eID →
        (removeMentorshipRequest db mrID st).1.getUser v = db.getUser v) := by
  have hdel_m : (db.deleteRequest mrID).getUser mID = some mu := hm
  have hdel_e : (db.deleteRequest mrID).getUser eID = some eu := he
  set db1 := db.deleteRequest mrID with hdb1
  set p2 := removeMentorshipRequestFromUser db1 mrID mID with hp2
  set p3 := removeMentorshipRequestFromUser p2.1 mrID eID with hp3
  have key : removeMentorshipRequest db mrID st =
      (p3.1, [Op.getRequestDoc mrID, Op.deleteRequestDoc mrID] ++ p2.2 ++ p3.2 ++
        [Op.broadcast [mID, eID] "mentorshipRequest" (some st)]) := by
    rw [removeMentorshipRequest, hr]
  have h2m : p2.1.getUser mID =
      some { mu with mentorshipRequests := some (jsSpliceAllFrom lm mrID) } := by
    rw [hp2]
    exact rmrfu_getUser_self db1 mrID mID mu lm hdel_m hml
  have h2e : p2.1.getUser eID = some eu := by
    rw [hp2, rmrfu_getUser_ne db1 mrID mID eID (Ne.symm hne)]
    exact hdel_e
  have h3e : p3.1.getUser eID =
      some { eu with mentorshipRequests := some (jsSpliceAllFrom le mrID) } := by
    rw [hp3]
    exact rmrfu_getUser_self p2.1 mrID eID eu le h2e hel
  have h3m : p3.1.getUser mID =
      some { mu with mentorshipRequests := some (jsSpliceAllFrom lm mrID) } := by
    rw [hp3, rmrfu_getUser_ne p2.1 mrID eID mID hne]
    exact h2m
  have h3req : p3.1.getRequest mrID = none := by
    rw [hp3, rmrfu_getRequest, hp2, rmrfu_getRequest, hdb1, getRequest_deleteRequest]
    simp
  refine ⟨?_, ?_, ?_, ?_, ?_⟩
  · rw [key]
    exact h3m
  · rw [key]
    exact h3e
  · rw [key]
    exact h3req
  · rw [key]
    simp
  · intro v hvm hve
    rw [key]
    show p3.1.getUser v = db.getUser v
    rw [hp3, rmrfu_getUser_ne p2.1 mrID eID v hve, hp2,
      rmrfu_getUser_ne db1 mrID mID v hvm, hdb1]
    rfl

theorem amrtu_requests (db : DB) (mrID userID : String) :
    (addMentorshipRequestToUser db mrID userID).1.requests = db.requests := by
  rcases hu : db.getUser userID with _ | u
  · simp [addMentorshipRequestToUser, hu]
  · simp [addMentorshipRequestToUser, hu, DB.setUser]

theorem amrtu_getRequest (db : DB) (mrID userID j : String) :
    (addMentorshipRequestToUser db mrID userID).1.getRequest j = db.getRequest j := by
  show alookup (addMentorshipRequestToUser db mrID userID).1.requests j = _
  rw [amrtu_requests]
  rfl

theorem amrtu_getUser_ne (db : DB) (mrID userID j : String) (h : j ≠ userID) :
    (addMentorshipRequestToUser db mrID userID).1.getUser j = db.getUser j := by
  rcases hu : db.getUser userID with _ | u
  · simp [addMentorshipRequestToUser, hu]
  · have : (db.setUser userID
        (fun v => { v with
          mentorshipRequests := some ((u.mentorshipRequests).getD [] ++ [mrID]) })).getUser j
        = db.getUser j := getUser_setUser_ne db userID j _ h
    simpa [addMentorshipRequestToUser, hu] using this

theorem amrtu_getUser_self (db : DB) (mrID userID : String) (u : UserR)
    (hu : db.getUser userID = some u) :
    (addMentorshipRequestToUser db mrID userID).1.getUser userID =
      some { u with mentorshipRequests := some ((u.mentorshipRequests).getD [] ++ [mrID]) } := by
  have : (db.setUser userID
      (fun v => { v with
        mentorshipRequests := some ((u.mentorshipRequests).getD [] ++ [mrID]) })).getUser userID
      = some { u with mentorshipRequests := some ((u.mentorshipRequests).getD [] ++ [mrID]) } :=
    getUser_setUser_self db userID _ u hu
  simpa [addMentorshipRequestToUser, hu] using this

theorem amr_spec (db : DB) (rid m e : String) (mu eu : UserR)
    (hne : m ≠ e)
    (hm : db.getUser m = some mu) (he : db.getUser e = some eu)
    (hfresh : db.getRequest rid = none) :
    (addMentorshipRequest db rid m e).1.getUser m =
        some { mu with mentorshipRequests := some ((mu.mentorshipRequests).getD [] ++ [rid]) }
    ∧ (addMentorshipRequest db rid m e).1.getUser e =
        some { eu with mentorshipRequests := some ((eu.mentorshipRequests).getD [] ++ [rid]) }
    ∧ (addMentorshipRequest db rid m e).1.getRequest rid =
        some { mentorID := some m, menteeID := some e }
    ∧ (∀ j, j ≠ rid → (addMentorshipRequest db rid m e).1.getRequest j = db.getRequest j)
    ∧ (∀ v, v ≠ m → v ≠ e → (addMentorshipRequest db rid m e).1.getUser v = db.getUser v)
    ∧ Op.broadcast [m, e] "mentorshipRequest" none ∈ (addMentorshipRequest db rid m e).2 := by
  set db1 := db.createRequest rid { mentorID := some m, menteeID := some e } with hdb1
  set p2 := addMentorshipRequestToUser db1 rid m with hp2
  set p3 := addMentorshipRequestToUser p2.1 rid e with hp3
  have h1m : db1.getUser m = some mu := hm
  have h1e : db1.getUser e = some eu := he
  have h2m : p2.1.getUser m =
      some { mu with mentorshipRequests := some ((mu.mentorshipRequests).getD [] ++ [rid]) } := by
    rw [hp2]
    exact amrtu_getUser_self db1 rid m mu h1m
  have h2e : p2.1.getUser e = some eu := by
    rw [hp2, amrtu_getUser_ne db1 rid m e (Ne.symm hne)]
    exact h1e
  have h3e : p3.1.getUser e =
      some { eu with mentorshipRequests := some ((eu.mentorshipRequests).getD [] ++ [rid]) } := by
    rw [hp3]
    exact amrtu_getUser_self p2.1 rid e eu h2e
  have h3m : p3.1.getUser m =
      some { mu with mentorshipRequests := some ((mu.mentorshipRequests).getD [] ++ [rid]) } := by
    rw [hp3, amrtu_getUser_ne p2.1 rid e m hne]
    exact h2m
  have hreq : ∀ j, p3.1.getRequest j = db1.getRequest j := by
    intro j
    rw [hp3, amrtu_getRequest, hp2, amrtu_getRequest]
  refine ⟨h3m, h3e, ?_, ?_, ?_, ?_⟩
  · rw [show (addMentorshipRequest db rid m e).1 = p3.1 from rfl, hreq rid, hdb1]
    exact getRequest_createRequest_self db rid _ hfresh
  · intro j hj
    rw [show (addMentorshipRequest db rid m e).1 = p3.1 from rfl, hreq j, hdb1]
    exact getRequest_createRequest_ne db rid _ j hj
  · intro v hvm hve
    rw [show (addMentorshipRequest db rid m e).1 = p3.1 from rfl, hp3,
      amrtu_getUser_ne p2.1 rid e v hve, hp2, amrtu_getUser_ne db1 rid m v hvm, hdb1]
    rfl
  · show Op.broadcast [m, e] "mentorshipRequest" none ∈
      [Op.createRequestDoc rid] ++ p2.2 ++ p3.2 ++ [Op.broadcast [m, e] "mentorshipRequest" none]
    simp

theorem addMentorship_spec (db : DB) (m e : String) (mu eu : UserR)
    (hm : db.getUser m = some mu) (he : db.getUser e = some eu) :
    addMentorship db m e = .ok
      ((db.setUser e (fun v => { v with mentorID := some m })).setUser m
        (fun v => { v with menteeIDs := some ((mu.menteeIDs).getD [] ++ [e]) }),
       [Op.getUserDoc m, Op.getUserDoc e, Op.setUserDoc e, Op.setUserDoc m]) := by
  rw [addMentorship, hm, he]

/-- A successful `send` in a state where the duplicate lookup returns no match
and changes nothing: the caller `e` sends to mentor `m`, the fresh record is
created and its ID is appended to both lists. -/
theorem sendAction_clean (db : DB) (rid m e : String) (mu eu : UserR) (lm le : List String)
    (fops : List Op)
    (hne : m ≠ e)
    (hm : db.getUser m = some mu) (hmm : mu.isMentor = true) (hma : mu.acceptingMentees = true)
    (hml : mu.mentorshipRequests = some lm)
    (he : db.getUser e = some eu) (hel : eu.mentorshipRequests = some le)
    (hfind : FindMentorshipRequestBetweenMentorMentee db m e = (none, db, fops))
    (hfresh : db.getRequest rid = none) :
    (sendAction db rid e m).1 = .ok
    ∧ (sendAction db rid e m).2.1.getUser m =
        some { mu with mentorshipRequests := some (lm ++ [rid]) }
    ∧ (sendAction db rid e m).2.1.getUser e =
        some { eu with mentorshipRequests := some (le ++ [rid]) }
    ∧ (sendAction db rid e m).2.1.getRequest rid =
        some { mentorID := some m, menteeID := some e }
    ∧ (∀ j, j ≠ rid → (sendAction db rid e m).2.1.getRequest j = db.getRequest j)
    ∧ (∀ v, v ≠ m → v ≠ e → (sendAction db rid e m).2.1.getUser v = db.getUser v) := by
  have hnot : ¬(m = e) := hne
  have key : sendAction db rid e m =
      (.ok, (addMentorshipRequest db rid m e).1,
        Op.getUserDoc m :: fops ++ (addMentorshipRequest db rid m e).2) := by
    simp [sendAction, hm, hmm, hma, hfind, hnot]
  obtain ⟨a1, a2, a3, a4, a5, _⟩ := amr_spec db rid m e mu eu hne hm he hfresh
  rw [hml, Option.getD_some] at a1
  rw [hel, Option.getD_some] at a2
  rw [key]
  exact ⟨rfl, a1, a2, a3, a4, a5⟩

/-! ## Claim C1 -/

/-- C1.  For a fresh pair of users where mentee `a` has sent mentorship
request `rid` to mentor `b` (`isMentor`, `acceptingMentees` both true), a
successful `accept` by `b` returns `ok`, deletes the standalone request
record, removes its ID from both users' `mentorshipRequests` lists,
broadcasts the deletion with status `accepted`, and establishes the
relationship: `a`'s `mentorID` is `b` and `b`'s `menteeIDs` contains `a`. -/
theorem accept_fresh_pair_establishes_relationship (a b rid : String) (hne : a ≠ b) :
    (acceptAction (freshPairDB a b rid) b rid).1 = .ok
    ∧ (acceptAction (freshPairDB a b rid) b rid).2.1.getRequest rid = none
    ∧ (acceptAction (freshPairDB a b rid) b rid).2.1.getUser a =
        some { isMentee := true, mentorID := some b, mentorshipRequests := some [] }
    ∧ (acceptAction (freshPairDB a b rid) b rid).2.1.getUser b =
        some { isMentor := true, acceptingMentees := true, menteeIDs := some [a],
               mentorshipRequests := some [] }
    ∧ Op.broadcast [b, a] "mentorshipRequest" (some "accepted") ∈
        (acceptAction (freshPairDB a b rid) b rid).2.2 := by
  have hba : b ≠ a := Ne.symm hne
  have hr : (freshPairDB a b rid).getRequest rid =
      some { mentorID := some b, menteeID := some a } := by
    simp [freshPairDB, DB.getRequest, alookup]
  have hmB : (freshPairDB a b rid).getUser b =
      some { isMentor := true, acceptingMentees := true, mentorshipRequests := some [rid] } := by
    simp [freshPairDB, DB.getUser, alookup, hne]
  have hmA : (freshPairDB a b rid).getUser a =
      some { isMentee := true, mentorshipRequests := some [rid] } := by
    simp [freshPairDB, DB.getUser, alookup]
  obtain ⟨r1, r2, r3, r4, r5⟩ := rmr_spec (freshPairDB a b rid) rid "accepted" b a
    { isMentor := true, acceptingMentees := true, mentorshipRequests := some [rid] }
    { isMentee := true, mentorshipRequests := some [rid] } [rid] [rid] hba hr hmB rfl hmA rfl
  have hsp : jsSpliceAllFrom [rid] rid = [] := by
    simp [jsSpliceAllFrom, firstIdx]
  rw [hsp] at r1 r2
  set p := removeMentorshipRequest (freshPairDB a b rid) rid "accepted" with hp
  have hadd := addMentorship_spec p.1 b a
    { isMentor := true, acceptingMentees := true, mentorshipRequests := some [] }
    { isMentee := true, mentorshipRequests := some [] } r1 r2
  have hbb : ¬(b ≠ b) := fun h => h rfl
  have key : acceptAction (freshPairDB a b rid) b rid =
      (.ok, ((p.1.setUser a (fun v => { v with mentorID := some b })).setUser b
        (fun v => { v with menteeIDs := some [a] })),
        Op.getRequestDoc rid :: p.2 ++
          [Op.getUserDoc b, Op.getUserDoc a, Op.setUserDoc a, Op.setUserDoc b]) := by
    simp [acceptAction, hr, hbb, hadd]
  refine ⟨?_, ?_, ?_, ?_, ?_⟩
  · rw [key]
  · rw [key]
    show ((p.1.setUser a _).setUser b _).getRequest rid = none
    rw [getRequest_setUser, getRequest_setUser]
    exact r3
  · rw [key]
    show ((p.1.setUser a _).setUser b _).getUser a = _
    rw [getUser_setUser_ne _ b a _ hne]
    exact getUser_setUser_self p.1 a _ _ r2
  · rw [key]
    show ((p.1.setUser a _).setUser b _).getUser b = _
    have hinner : (p.1.setUser a (fun v => { v with mentorID := some b })).getUser b =
        some { isMentor := true, acceptingMentees := true, mentorshipRequests := some [] } := by
      rw [getUser_setUser_ne _ a b _ hba]
      exact r1
    exact getUser_setUser_self _ b _ _ hinner
  · rw [key]
    exact List.mem_cons_of_mem _ (List.mem_append_left _ r4)

/-- Witness for C1 at a concrete fresh pair. -/
theorem accept_fresh_pair_witness :
    (acceptAction (freshPairDB "a" "b" "r") "b" "r").1 = .ok
    ∧ (acceptAction (freshPairDB "a" "b" "r") "b" "r").2.1.getUser "a" =
        some { isMentee := true, mentorID := some "b", mentorshipRequests := some [] } :=
  ⟨(accept_fresh_pair_establishes_relationship "a" "b" "r" (by decide)).1,
   (accept_fresh_pair_establishes_relationship "a" "b" "r" (by decide)).2.2.1⟩

/-! ## Claim C2 -/

theorem userR_update_requests_self (u : UserR) (l : List String)
    (h : u.mentorshipRequests = some l) :
    ({ u with mentorshipRequests := some l } : UserR) = u := by
  cases u
  simp_all

/-- C2 counterexample.  In a starting state where the two users' lists share
the dangling ID `d`, `send` succeeds (after the duplicate lookup self-heals
`d` away) and `cancel` succeeds, but the lists end up `[]`, not their
pre-send value `["d"]`: the round trip does *not* restore the pre-send
state. -/
theorem send_cancel_roundtrip_cex :
    (sendAction sharedDanglingDB "r" "e" "m").1 = .ok
    ∧ (cancelAction (sendAction sharedDanglingDB "r" "e" "m").2.1 "e" "r").1 = .ok
    ∧ (cancelAction (sendAction sharedDanglingDB "r" "e" "m").2.1 "e" "r").2.1.getRequest "r"
        = none
    ∧ (cancelAction (sendAction sharedDanglingDB "r" "e" "m").2.1 "e" "r").2.1.getUser "e" =
        some { mentorshipRequests := some [] }
    ∧ sharedDanglingDB.getUser "e" = some { mentorshipRequests := some ["d"] }
    ∧ (cancelAction (sendAction sharedDanglingDB "r" "e" "m").2.1 "e" "r").2.1.getUser "e" ≠
        sharedDanglingDB.getUser "e"
    ∧ (cancelAction (sendAction sharedDanglingDB "r" "e" "m").2.1 "e" "r").2.1.getUser "m" ≠
        sharedDanglingDB.getUser "m" := by
  decide

/-- C2 amended.  For every starting state in which the duplicate lookup
returns no match *without modifying the database* (no self-heal fires), a
successful `send` from mentee `e` to mentor `m` followed by a successful
`cancel` by `e` restores both user records exactly and leaves no standalone
record under the fresh ID. -/
theorem send_then_cancel_roundtrip (db : DB) (rid m e : String) (mu eu : UserR)
    (lm le : List String) (fops : List Op)
    (hne : m ≠ e)
    (hm : db.getUser m = some mu) (hmm : mu.isMentor = true) (hma : mu.acceptingMentees = true)
    (hml : mu.mentorshipRequests = some lm)
    (he : db.getUser e = some eu) (hel : eu.mentorshipRequests = some le)
    (hfind : FindMentorshipRequestBetweenMentorMentee db m e = (none, db, fops))
    (hfresh : db.getRequest rid = none)
    (hfm : rid ∉ lm) (hfe : rid ∉ le) :
    (sendAction db rid e m).1 = .ok
    ∧ (cancelAction (sendAction db rid e m).2.1 e rid).1 = .ok
    ∧ (cancelAction (sendAction db rid e m).2.1 e rid).2.1.getUser m = db.getUser m
    ∧ (cancelAction (sendAction db rid e m).2.1 e rid).2.1.getUser e = db.getUser e
    ∧ (cancelAction (sendAction db rid e m).2.1 e rid).2.1.getRequest rid = none := by
  obtain ⟨s1, s2, s3, s4, s5, s6⟩ :=
    sendAction_clean db rid m e mu eu lm le fops hne hm hmm hma hml he hel hfind hfresh
  set db2 := (sendAction db rid e m).2.1 with hdb2
  have hreq2 : db2.getRequest rid = some { mentorID := some m, menteeID := some e } := s4
  obtain ⟨c1, c2, c3, _, _⟩ := rmr_spec db2 rid "cancelled" m e
    { mu with mentorshipRequests := some (lm ++ [rid]) }
    { eu with mentorshipRequests := some (le ++ [rid]) }
    (lm ++ [rid]) (le ++ [rid]) hne hreq2 s2 rfl s3 rfl
  rw [jsSpliceAllFrom_append lm rid hfm] at c1
  rw [jsSpliceAllFrom_append le rid hfe] at c2
  have hee : ¬(e ≠ e) := fun h => h rfl
  have keyC : cancelAction db2 e rid =
      (.ok, (removeMentorshipRequest db2 rid "cancelled").1,
        Op.getRequestDoc rid :: (removeMentorshipRequest db2 rid "cancelled").2) := by
    simp [cancelAction, hreq2, hee]
  refine ⟨s1, ?_, ?_, ?_, ?_⟩
  · rw [keyC]
  · rw [keyC]
    show (removeMentorshipRequest db2 rid "cancelled").1.getUser m = db.getUser m
    rw [c1, hm]
    exact congrArg some (userR_update_requests_self mu lm hml)
  · rw [keyC]
    show (removeMentorshipRequest db2 rid "cancelled").1.getUser e = db.getUser e
    rw [c2, he]
    exact congrArg some (userR_update_requests_self eu le hel)
  · rw [keyC]
    exact c3

/-- Witness for C2 at a concrete clean state whose lists share a request that
belongs to a different pair. -/
theorem send_then_cancel_roundtrip_witness :
    (sendAction cleanPairDB "r" "e" "m").1 = .ok
    ∧ (cancelAction (sendAction cleanPairDB "r" "e" "m").2.1 "e" "r").2.1.getUser "e" =
        cleanPairDB.getUser "e" :=
  ⟨(send_then_cancel_roundtrip cleanPairDB "r" "m" "e"
      { isMentor := true, acceptingMentees := true, mentorshipRequests := some ["q"] }
      { mentorshipRequests := some ["q"] } ["q"] ["q"]
      [Op.getUserDoc "m", Op.getUserDoc "e", Op.getRequestDoc "q"]
      (by decide) (by decide) rfl rfl rfl (by decide) rfl (by decide) (by decide)
      (by decide) (by decide)).1,
   (send_then_cancel_roundtrip cleanPairDB "r" "m" "e"
      { isMentor := true, acceptingMentees := true, mentorshipRequests := some ["q"] }
      { mentorshipRequests := some ["q"] } ["q"] ["q"]
      [Op.getUserDoc "m", Op.getUserDoc "e", Op.getRequestDoc "q"]
      (by decide) (by decide) rfl rfl rfl (by decide) rfl (by decide) (by decide)
      (by decide) (by decide)).2.2.2.1⟩

/-! ## Lemmas about the intersection loop -/

/-- When an iterated ID whose record exactly matches the queried pair is in
`set2`, the loop returns a match (whatever happens to the IDs processed
before it). -/
theorem findLoop_finds (iter : List String) :
    ∀ (db : DB) (set2 : List String) (m e rid : String),
      rid ∈ iter → rid ∈ set2 →
      db.getRequest rid = some { mentorID := some m, menteeID := some e } →
      ((findLoop db iter set2 m e).1).isSome = true := by
  induction iter with
  | nil =>
    intro db set2 m e rid h _ _
    simp at h
  | cons x rest ih =>
    intro db set2 m e rid hmem h2 hr
    by_cases hx2 : x ∈ set2
    · by_cases hxr : x = rid
      · subst hxr
        simp [findLoop, hx2, hr]
      · have hrest : rid ∈ rest := by
          rcases List.mem_cons.mp hmem with h | h
          · exact absurd h.symm hxr
          · exact h
        have hrx : rid ≠ x := fun h => hxr h.symm
        rcases hreq : db.getRequest x with _ | r
        · have hpres : ((removeMentorshipRequestFromUser
              (removeMentorshipRequestFromUser db x e).1 x m).1).getRequest rid =
              some { mentorID := some m, menteeID := some e } := by
            rw [rmrfu_getRequest, rmrfu_getRequest]
            exact hr
          have hres := ih _ set2 m e rid hrest h2 hpres
          simpa [findLoop, hx2, hreq] using hres
        · rcases r with ⟨rm0, re0⟩
          rcases rm0 with _ | rm
          · -- malformed record (no mentorID): deleted via the decline path
            have hpres : ((removeMentorshipRequest db x "declined").1).getRequest rid =
                some { mentorID := some m, menteeID := some e } := by
              rw [rmr_getRequest_ne db x "declined" rid hrx]
              exact hr
            have hres := ih _ set2 m e rid hrest h2 hpres
            simpa [findLoop, hx2, hreq] using hres
          · rcases re0 with _ | re
            · have hpres : ((removeMentorshipRequest db x "declined").1).getRequest rid =
                  some { mentorID := some m, menteeID := some e } := by
                rw [rmr_getRequest_ne db x "declined" rid hrx]
                exact hr
              have hres := ih _ set2 m e rid hrest h2 hpres
              simpa [findLoop, hx2, hreq] using hres
            · by_cases hcond : rm = m ∧ re = e
              · simp [findLoop, hx2, hreq, hcond]
              · have hres := ih db set2 m e rid hrest h2 hr
                simpa [findLoop, hx2, hreq, hcond] using hres
    · have hrest : rid ∈ rest := by
        rcases List.mem_cons.mp hmem with h | h
        · exact absurd (h ▸ h2) hx2
        · exact h
      have hres := ih db set2 m e rid hrest h2 hr
      simpa [findLoop, hx2] using hres

/-! ## Claim C3 -/

/-- C3 counterexample.  With a pending request in the *reverse* orientation
(record `x` names `e` as mentor and `m` as mentee), a `send` from `e` to `m`
succeeds and creates a new standalone record: an existing request between the
pair in the other direction does not make `send` fail. -/
theorem reverse_request_does_not_block_send_cex :
    reverseRequestDB.getRequest "x" = some { mentorID := some "e", menteeID := some "m" }
    ∧ (sendAction reverseRequestDB "r" "e" "m").1 = .ok
    ∧ (sendAction reverseRequestDB "r" "e" "m").2.1.getRequest "r" =
        some { mentorID := some "m", menteeID := some "e" } := by
  decide

/-- C3 amended.  In a state where the duplicate lookup is clean, the first
`send` from mentee `e` to mentor `m` succeeds, and an immediately repeated
`send` for the same ordered pair fails with the already-sent error (a request
in the *same* orientation blocks; the counterexample shows the reverse
orientation does not). -/
theorem consecutive_sends_second_fails (db : DB) (rid rid2 m e : String) (mu eu : UserR)
    (lm le : List String) (fops : List Op)
    (hne : m ≠ e)
    (hm : db.getUser m = some mu) (hmm : mu.isMentor = true) (hma : mu.acceptingMentees = true)
    (hml : mu.mentorshipRequests = some lm)
    (he : db.getUser e = some eu) (hel : eu.mentorshipRequests = some le)
    (hfind : FindMentorshipRequestBetweenMentorMentee db m e = (none, db, fops))
    (hfresh : db.getRequest rid = none) :
    (sendAction db rid e m).1 = .ok
    ∧ (sendAction (sendAction db rid e m).2.1 rid2 e m).1 =
        .failMsg "You have already sent a request" := by
  obtain ⟨s1, s2, s3, s4, _, _⟩ :=
    sendAction_clean db rid m e mu eu lm le fops hne hm hmm hma hml he hel hfind hfresh
  set db2 := (sendAction db rid e m).2.1 with hdb2
  refine ⟨s1, ?_⟩
  have hnot : ¬(m = e) := hne
  set set1 := jsSetOf (lm ++ [rid]) with hset1
  set set2 := jsSetOf (le ++ [rid]) with hset2
  set iterD := if set1.length < set2.length then set1 else set2 with hiter
  have hmem1 : rid ∈ iterD := by
    rw [hiter]
    by_cases h : set1.length < set2.length
    · rw [if_pos h, hset1, mem_jsSetOf]
      simp
    · rw [if_neg h, hset2, mem_jsSetOf]
      simp
  have hmem2 : rid ∈ set2 := by
    rw [hset2, mem_jsSetOf]
    simp
  have hsome : ((findLoop db2 iterD set2 m e).1).isSome = true :=
    findLoop_finds iterD db2 set2 m e rid hmem1 hmem2 s4
  obtain ⟨rfound, hrf⟩ := Option.isSome_iff_exists.mp hsome
  have hfind2 : (FindMentorshipRequestBetweenMentorMentee db2 m e).1 = some rfound := by
    simp only [FindMentorshipRequestBetweenMentorMentee, s2, s3]
    exact hrf
  simp [sendAction, s2, hnot, hmm, hma, hfind2]

/-- Witness for C3 at a concrete empty-list pair. -/
theorem consecutive_sends_second_fails_witness :
    (sendAction emptyPairDB "r1" "e" "m").1 = .ok
    ∧ (sendAction (sendAction emptyPairDB "r1" "e" "m").2.1 "r2" "e" "m").1 =
        .failMsg "You have already sent a request" :=
  consecutive_sends_second_fails emptyPairDB "r1" "r2" "m" "e"
    { isMentor := true, acceptingMentees := true, mentorshipRequests := some [] }
    { mentorshipRequests := some [] } [] []
    [Op.getUserDoc "m", Op.getUserDoc "e"]
    (by decide) (by decide) rfl rfl rfl (by decide) rfl (by decide) (by decide)

/-! ## Claim C4 -/

/-- Whatever IDs the loop examines, a returned record's endpoints equal the
queried pair exactly, in that orientation. -/
theorem findLoop_some_matches (iter : List String) :
    ∀ (db : DB) (set2 : List String) (m e : String) (r : ReqR),
      (findLoop db iter set2 m e).1 = some r →
      r.mentorID = some m ∧ r.menteeID = some e := by
  induction iter with
  | nil =>
    intro db set2 m e r h
    simp [findLoop] at h
  | cons x rest ih =>
    intro db set2 m e r h
    by_cases hx2 : x ∈ set2
    · rcases hreq : db.getRequest x with _ | rr
      · simp only [findLoop, if_pos hx2, hreq] at h
        exact ih _ set2 m e r h
      · rcases rr with ⟨rm0, re0⟩
        rcases rm0 with _ | rm
        · simp only [findLoop, if_pos hx2, hreq] at h
          exact ih _ set2 m e r h
        · rcases re0 with _ | re
          · simp only [findLoop, if_pos hx2, hreq] at h
            exact ih _ set2 m e r h
          · by_cases hcond : rm = m ∧ re = e
            · simp only [findLoop, if_pos hx2, hreq, if_pos hcond] at h
              obtain ⟨rfl, rfl⟩ := hcond
              simp at h
              subst h
              exact ⟨rfl, rfl⟩
            · simp only [findLoop, if_pos hx2, hreq, if_neg hcond] at h
              exact ih db set2 m e r h
    · simp only [findLoop, if_neg hx2] at h
      exact ih db set2 m e r h

/-- C4 counterexample.  With mentor list `["a", "b"]` and mentee list `["c"]`
(the mentee's set is the smaller one), the lookup fetches the standalone
record for `c` even though `c` is not in the mentor's list — the membership
test is `set2.has`, the mentee's own set, so the examined IDs are not the
intersection of the two lists. -/
theorem find_fetches_outside_intersection_cex :
    menteeOnlyIdDB.getUser "m" = some { mentorshipRequests := some ["a", "b"] }
    ∧ menteeOnlyIdDB.getUser "e" = some { mentorshipRequests := some ["c"] }
    ∧ Op.getRequestDoc "c" ∈
        (FindMentorshipRequestBetweenMentorMentee menteeOnlyIdDB "m" "e").2.2
    ∧ ("c" ∉ (["a", "b"] : List String)) := by
  decide

/-- C4 amended.  The loop iterates the smaller set but tests membership
against the mentee's set (so with a mentee list that is not larger, every one
of its IDs is examined, as the counterexample shows); the orientation half of
the claim holds: any returned match names exactly the queried mentor and
mentee, never the reverse. -/
theorem find_match_orientation_exact (db : DB) (m e : String) (r : ReqR)
    (h : (FindMentorshipRequestBetweenMentorMentee db m e).1 = some r) :
    r.mentorID = some m ∧ r.menteeID = some e := by
  rcases hm : db.getUser m with _ | mu
  · simp [FindMentorshipRequestBetweenMentorMentee, hm] at h
  · rcases hml : mu.mentorshipRequests with _ | lm
    · simp [FindMentorshipRequestBetweenMentorMentee, hm, hml] at h
    · rcases he : db.getUser e with _ | eu
      · simp [FindMentorshipRequestBetweenMentorMentee, hm, hml, he] at h
      · rcases hel : eu.mentorshipRequests with _ | le
        · simp [FindMentorshipRequestBetweenMentorMentee, hm, hml, he, hel] at h
        · simp only [FindMentorshipRequestBetweenMentorMentee, hm, hml, he, hel] at h
          exact findLoop_some_matches _ _ _ _ _ _ h

/-- Witness for C4 at a state whose shared request matches exactly. -/
theorem find_match_orientation_exact_witness :
    (⟨some "m", some "e"⟩ : ReqR).mentorID = some "m"
    ∧ (⟨some "m", some "e"⟩ : ReqR).menteeID = some "e" :=
  find_match_orientation_exact matchingRequestDB "m" "e" ⟨some "m", some "e"⟩ (by decide)

/-! ## Claim C5 -/

theorem findLoop_skip_all (iter : List String) :
    ∀ (db : DB) (set2 : List String) (m e : String),
      (∀ x ∈ iter, x ∉ set2) →
      findLoop db iter set2 m e = (none, db, []) := by
  induction iter with
  | nil =>
    intro db set2 m e _
    rfl
  | cons x rest ih =>
    intro db set2 m e h
    have hx : x ∉ set2 := h x (List.mem_cons_self x rest)
    have hr : ∀ y ∈ rest, y ∉ set2 := fun y hy => h y (List.mem_cons_of_mem x hy)
    simp only [findLoop, if_neg hx]
    exact ih db set2 m e hr

theorem findLoop_skip_prefix (l1 : List String) :
    ∀ (l2 : List String) (db : DB) (set2 : List String) (m e : String),
      (∀ x ∈ l1, x ∉ set2) →
      findLoop db (l1 ++ l2) set2 m e = findLoop db l2 set2 m e := by
  induction l1 with
  | nil =>
    intro l2 db set2 m e _
    rfl
  | cons x rest ih =>
    intro l2 db set2 m e h
    have hx : x ∉ set2 := h x (List.mem_cons_self x rest)
    have hr : ∀ y ∈ rest, y ∉ set2 := fun y hy => h y (List.mem_cons_of_mem x hy)
    show findLoop db (x :: (rest ++ l2)) set2 m e = findLoop db l2 set2 m e
    simp only [findLoop, if_neg hx]
    exact ih l2 db set2 m e hr

/-- C5 counterexample.  Mentor list `["d", "x"]`, mentee list `["d"]`, `d`
dangling: the lookup returns no-match and prunes `d`, but the single-argument
`splice` removes everything from `d`'s position on, so the unrelated trailing
ID `x` is removed from the mentor's list as well — not "only that ID". -/
theorem find_dangling_removes_more_cex :
    danglingWithTailDB.getUser "m" = some { mentorshipRequests := some ["d", "x"] }
    ∧ danglingWithTailDB.getRequest "d" = none
    ∧ (FindMentorshipRequestBetweenMentorMentee danglingWithTailDB "m" "e").1 = none
    ∧ (FindMentorshipRequestBetweenMentorMentee danglingWithTailDB "m" "e").2.1.getUser "m" =
        some { mentorshipRequests := some [] }
    ∧ (FindMentorshipRequestBetweenMentorMentee danglingWithTailDB "m" "e").2.1.getUser "m" ≠
        some { mentorshipRequests := some ["x"] } := by
  decide

/-- C5 amended.  When the only ID the two lists share is the dangling `d`
(and the mentor's set is the strictly smaller one, so only the intersection
is examined), the lookup returns no-match and, as a side effect, *truncates*
each user's `mentorshipRequests` at `d`'s first position — `d` and every
entry after it are removed (`jsSpliceAllFrom`), which equals removing only
`d` exactly when `d` is the last entry. -/
theorem find_dangling_prunes_by_truncation (db : DB) (m e d : String) (mu eu : UserR)
    (lm le : List String)
    (hne : m ≠ e)
    (hm : db.getUser m = some mu) (hml : mu.mentorshipRequests = some lm)
    (he : db.getUser e = some eu) (hel : eu.mentorshipRequests = some le)
    (hd1 : d ∈ lm) (hd2 : d ∈ le)
    (honly : ∀ x, x ∈ lm → x ∈ le → x = d)
    (hsize : (jsSetOf lm).length < (jsSetOf le).length)
    (hdang : db.getRequest d = none) :
    (FindMentorshipRequestBetweenMentorMentee db m e).1 = none
    ∧ (FindMentorshipRequestBetweenMentorMentee db m e).2.1.getUser m =
        some { mu with mentorshipRequests := some (jsSpliceAllFrom lm d) }
    ∧ (FindMentorshipRequestBetweenMentorMentee db m e).2.1.getUser e =
        some { eu with mentorshipRequests := some (jsSpliceAllFrom le d) } := by
  obtain ⟨l1, l2, hdecomp⟩ := List.append_of_mem ((mem_jsSetOf lm d).mpr hd1)
  have hnd : (jsSetOf lm).Nodup := jsSetOf_nodup lm
  rw [hdecomp] at hnd
  have hnd' := List.nodup_append.mp hnd
  have hd_not_l1 : d ∉ l1 := by
    intro hmem
    exact absurd (List.mem_cons_self d l2) (hnd'.2.2 hmem)
  have hd_not_l2 : d ∉ l2 := (List.nodup_cons.mp hnd'.2.1).1
  have hside : ∀ x, x ∈ jsSetOf lm → x ∈ jsSetOf le → x = d := by
    intro x hx hx2
    exact honly x ((mem_jsSetOf lm x).mp hx) ((mem_jsSetOf le x).mp hx2)
  have hl1 : ∀ x ∈ l1, x ∉ jsSetOf le := by
    intro x hx hmem
    have : x = d := hside x (hdecomp ▸ List.mem_append_left _ hx) hmem
    exact hd_not_l1 (this ▸ hx)
  have hl2 : ∀ x ∈ l2, x ∉ jsSetOf le := by
    intro x hx hmem
    have hxin : x ∈ jsSetOf lm :=
      hdecomp ▸ List.mem_append_right _ (List.mem_cons_of_mem d hx)
    have : x = d := hside x hxin hmem
    exact hd_not_l2 (this ▸ hx)
  have hd2' : d ∈ jsSetOf le := (mem_jsSetOf le d).mpr hd2
  set db1 := (removeMentorshipRequestFromUser db d e).1 with hdb1
  set db2 := (removeMentorshipRequestFromUser db1 d m).1 with hdb2
  have hloop : (findLoop db (jsSetOf lm) (jsSetOf le) m e).1 = none
      ∧ (findLoop db (jsSetOf lm) (jsSetOf le) m e).2.1 = db2 := by
    rw [hdecomp, findLoop_skip_prefix l1 (d :: l2) db (jsSetOf le) m e hl1]
    have hrest := findLoop_skip_all l2 db2 (jsSetOf le) m e hl2
    simp only [findLoop, if_pos hd2', hdang]
    rw [← hdb1, ← hdb2]
    rw [hrest]
    exact ⟨rfl, rfl⟩
  have key : (FindMentorshipRequestBetweenMentorMentee db m e).1 =
        (findLoop db (jsSetOf lm) (jsSetOf le) m e).1
      ∧ (FindMentorshipRequestBetweenMentorMentee db m e).2.1 =
        (findLoop db (jsSetOf lm) (jsSetOf le) m e).2.1 := by
    constructor <;>
      simp only [FindMentorshipRequestBetweenMentorMentee, hm, hml, he, hel, if_pos hsize]
  have hgm : db2.getUser m = some { mu with mentorshipRequests := some (jsSpliceAllFrom lm d) } := by
    rw [hdb2]
    have hm1 : db1.getUser m = some mu := by
      rw [hdb1, rmrfu_getUser_ne db d e m hne]
      exact hm
    exact rmrfu_getUser_self db1 d m mu lm hm1 hml
  have hge : db2.getUser e = some { eu with mentorshipRequests := some (jsSpliceAllFrom le d) } := by
    rw [hdb2, rmrfu_getUser_ne db1 d m e (Ne.symm hne), hdb1]
    exact rmrfu_getUser_self db d e eu le he hel
  refine ⟨?_, ?_, ?_⟩
  · rw [key.1]
    exact hloop.1
  · rw [key.2, hloop.2]
    exact hgm
  · rw [key.2, hloop.2]
    exact hge

/-- Witness for C5: mentor list `["d"]`, mentee list `["d", "k"]`, `d`
dangling; both lists are truncated at `d` (so `k` is removed too). -/
theorem find_dangling_prunes_witness :
    (FindMentorshipRequestBetweenMentorMentee danglingWitnessDB "m" "e").1 = none
    ∧ (FindMentorshipRequestBetweenMentorMentee danglingWitnessDB "m" "e").2.1.getUser "e" =
        some { mentorshipRequests := some (jsSpliceAllFrom ["d", "k"] "d") } :=
  ⟨(find_dangling_prunes_by_truncation danglingWitnessDB "m" "e" "d"
      { mentorshipRequests := some ["d"] } { mentorshipRequests := some ["d", "k"] }
      ["d"] ["d", "k"] (by decide) rfl rfl rfl rfl (by decide) (by decide)
      (by intro x hx _; simpa using hx) (by decide) rfl).1,
   (find_dangling_prunes_by_truncation danglingWitnessDB "m" "e" "d"
      { mentorshipRequests := some ["d"] } { mentorshipRequests := some ["d", "k"] }
      ["d"] ["d", "k"] (by decide) rfl rfl rfl rfl (by decide) (by decide)
      (by intro x hx _; simpa using hx) (by decide) rfl).2.2⟩

/-! ## Claim C6 -/

/-- C6 counterexample.  The `connect` handler is unconditional, so a second
transport `connect` whose identity query returns no user moves a session that
had reached `authed_user` back to `authed_nouser`; likewise a `connect` after
`connect_error` resolves again and makes authorization progress. -/
theorem session_monotonicity_cex :
    sessRun .connecting [.connectEv .qfound] = .authed_user
    ∧ sessRun .connecting [.connectEv .qfound, .connectEv .qempty] = .authed_nouser
    ∧ sessStep .connect_error (.connectEv .qfound) = .authed_user := by
  decide

/-- C6 amended.  A session in a state other than `authed_nouser` enters
`authed_nouser` only through a transport `connect` event whose identity query
returns no user, and a session leaves `connect_error` only through a
transport `connect` event: no state-installed command handler violates
monotonicity — only the unconditional re-resolution does. -/
theorem session_reentry_only_via_connect (s : SessState) (ev : SessEvent) :
    (s ≠ .authed_nouser → sessStep s ev = .authed_nouser → ev = .connectEv .qempty)
    ∧ (s = .connect_error → sessStep s ev ≠ .connect_error → ∃ q, ev = .connectEv q) := by
  constructor
  · intro hs h
    cases ev with
    | connectEv q =>
      cases q
      · simp [sessStep, resolveConnect] at h
      · rfl
      · simp [sessStep, resolveConnect] at h
    | createUserEv ok =>
      cases s <;> cases ok <;> simp [sessStep] at h hs ⊢
  · intro hs h
    subst hs
    cases ev with
    | connectEv q => exact ⟨q, rfl⟩
    | createUserEv ok =>
      cases ok <;> simp [sessStep] at h

/-- Witness for C6 amended: the re-entry into `authed_nouser` from
`authed_user` is indeed a `connect` event with an empty query, and the event
moving a session out of `connect_error` is indeed a `connect`. -/
theorem session_reentry_witness :
    (SessEvent.connectEv .qempty = .connectEv .qempty)
    ∧ (∃ q, SessEvent.connectEv .qfound = .connectEv q) :=
  ⟨(session_reentry_only_via_connect .authed_user (.connectEv .qempty)).1
      (by decide) (by decide),
   (session_reentry_only_via_connect .connect_error (.connectEv .qfound)).2 rfl (by decide)⟩

/-! ## Claim C7 -/

/-- C7 (code bug).  A mentor with both flags true who submits an update with
`acceptingMentees := false` (leaving `isMentor` untouched) ends up stored
with merged flags `isMentor = true`, `acceptingMentees = false` — yet
`handleUpdateProfile` takes the `addSelf` branch, because
`isAcceptingMentor` ORs the *stale pre-update* flags with the payload
values.  The user therefore stays in (or is even added to) the process-wide
accepting-mentor set although one flag is now false, contradicting the
claim, the spec, and the code's own comment ("remove user if they made a
change that would affect their accepting mentor status"). -/
theorem updateProfile_index_inconsistent_bug :
    updateProfileIndexAction true true none (some false) = .addSelf
    ∧ mergedFlag true none = true
    ∧ mergedFlag true (some false) = false
    ∧ "u" ∈ applyIndexAction ["u"] "u" (updateProfileIndexAction true true none (some false))
    ∧ "u" ∈ applyIndexAction [] "u" (updateProfileIndexAction true true none (some false))
    ∧ updateProfileIndexAction true true (some false) none = .addSelf := by
  decide

/-! ## Claim C8 -/

/-- C8 counterexample.  `getAvailableAssessmentQuestions` and
`getMentorshipRequestBetweenUsers` perform no read of the session user's own
document at all — their operation traces contain no `getUserDoc` for the
session's user (`"s"`), so not every authenticated handler re-reads the self
record before acting. -/
theorem handlers_missing_self_refresh_cex :
    (handleGetAvailableAssessmentQuestionsTrace true).2 =
        [Op.queryAssessmentQuestions, Op.invokeCallback]
    ∧ Op.getUserDoc "s" ∉ (handleGetAvailableAssessmentQuestionsTrace true).2
    ∧ (getFindMentorshipRequestBetweenUsersTrace emptyPairDB true (some "m") (some "e")).2.2 =
        [Op.getUserDoc "m", Op.getUserDoc "e", Op.invokeCallback]
    ∧ Op.getUserDoc "s" ∉
        (getFindMentorshipRequestBetweenUsersTrace emptyPairDB true (some "m") (some "e")).2.2 := by
  decide

/-- C8 amended.  The other six authenticated handlers (`updateProfile`,
`getAllMentors`, `submitAssessment`, `mentorshipRequest`, `getUser`,
`getAssessment`) do re-read the session's own user document as their very
first operation, for every input. -/
theorem authed_handlers_refresh_self_first (db : DB) (sess : UserR) (selfID freshID : String)
    (hcb pg pv : Bool) (idx : List String) (mrp : Option MRPayload)
    (ap : Option AssessPayload) (tid aid : Option String) :
    (handleUpdateProfileTrace db selfID hcb pg pv).head? = some (Op.getUserDoc selfID)
    ∧ (handleGetAllMentorsTrace db selfID hcb idx).head? = some (Op.getUserDoc selfID)
    ∧ ((handleMentorshipRequestTrace db sess selfID freshID hcb mrp).2).head? =
        some (Op.getUserDoc selfID)
    ∧ ((handleSubmitAssessmentModel db sess selfID freshID hcb ap).2.2.2).head? =
        some (Op.getUserDoc selfID)
    ∧ (handleGetUserTrace db selfID hcb tid).head? = some (Op.getUserDoc selfID)
    ∧ (handleGetAssessmentTrace db selfID hcb aid).head? = some (Op.getUserDoc selfID) := by
  have hhead : ∀ rest : List Op, ((updateSelfTrace db selfID).2 ++ rest).head? =
      some (Op.getUserDoc selfID) := by
    intro rest
    rcases h : db.getUser selfID with _ | u <;> simp [updateSelfTrace, h]
  refine ⟨?_, ?_, ?_, ?_, ?_, ?_⟩
  · simp only [handleUpdateProfileTrace]
    exact hhead _
  · simp only [handleGetAllMentorsTrace]
    exact hhead _
  · simp only [handleMentorshipRequestTrace]
    exact hhead _
  · simp only [handleSubmitAssessmentModel]
    exact hhead _
  · simp only [handleGetUserTrace]
    exact hhead _
  · simp only [handleGetAssessmentTrace]
    exact hhead _

/-! ## Claim C9 -/

/-- C9 (code bug).  Invoked without a callback, `getMentorshipRequestBetweenUsers`
throws out of its handler (its plain-`function` `SendErrorMessage` has an
undefined `this`; the catch block calls it again and the second `TypeError`
escapes as a rejected promise) and emits *nothing*; and
`getAvailableAssessmentQuestions` swallows the same throw in an empty catch
and also emits nothing.  In both cases the promised generic error message is
never sent, and in the first the error propagates past the handler. -/
theorem missing_callback_no_message_bug :
    getFindMentorshipRequestBetweenUsersTrace emptyPairDB false (some "m") (some "e") =
        (.threw, emptyPairDB, [])
    ∧ handleGetAvailableAssessmentQuestionsTrace false = (.completed, []) := by
  decide

/-! ## Claim C10 -/

/-- C10.  A successful `submitAssessment` `delete` deletes the standalone
assessment record and splices the session's in-memory `assessments` array,
but never writes the owner's user document back: the stored user record —
including its `assessments` list, which still contains the deleted ID — is
unchanged. -/
theorem submitAssessment_delete_frame (db : DB) (sess : UserR) (selfID freshID aid : String)
    (u : UserR) (la : List String) (a : AssessR)
    (hu : db.getUser selfID = some u) (hl : u.assessments = some la) (hmem : aid ∈ la)
    (ha : db.getAssessment aid = some a) (how : a.userID = some selfID) :
    (handleSubmitAssessmentModel db sess selfID freshID true
        (some { action := .delete, id := some aid })).1 = some .ok
    ∧ (handleSubmitAssessmentModel db sess selfID freshID true
        (some { action := .delete, id := some aid })).2.1.users = db.users
    ∧ (handleSubmitAssessmentModel db sess selfID freshID true
        (some { action := .delete, id := some aid })).2.1.getAssessment aid = none
    ∧ (handleSubmitAssessmentModel db sess selfID freshID true
        (some { action := .delete, id := some aid })).2.1.getUser selfID = some u
    ∧ u.assessments = some la ∧ aid ∈ la
    ∧ (handleSubmitAssessmentModel db sess selfID freshID true
        (some { action := .delete, id := some aid })).2.2.1 = jsSpliceOne la aid := by
  have hnot : ¬(a.userID ≠ some selfID) := fun h => h how
  have key : handleSubmitAssessmentModel db sess selfID freshID true
      (some { action := .delete, id := some aid }) =
      (some .ok, db.deleteAssessment aid, jsSpliceOne la aid,
        (updateSelfTrace db selfID).2 ++
          [Op.getAssessmentDoc aid, Op.deleteAssessmentDoc aid, Op.invokeCallback]) := by
    simp [handleSubmitAssessmentModel, submitAssessmentCore, updateSelfTrace, hu, hl, ha, hnot]
  refine ⟨?_, ?_, ?_, ?_, hl, hmem, ?_⟩
  · rw [key]
  · rw [key]
    rfl
  · rw [key]
    show (db.deleteAssessment aid).getAssessment aid = none
    rw [getAssessment_deleteAssessment]
    simp
  · rw [key]
    show (db.deleteAssessment aid).getUser selfID = some u
    rw [getUser_deleteAssessment]
    exact hu
  · rw [key]

/-- Witness for C10 at a concrete owner with two assessments. -/
theorem submitAssessment_delete_frame_witness :
    (handleSubmitAssessmentModel assessOwnerDB { } "s" "f" true
        (some { action := .delete, id := some "k" })).2.1.users = assessOwnerDB.users
    ∧ (handleSubmitAssessmentModel assessOwnerDB { } "s" "f" true
        (some { action := .delete, id := some "k" })).2.2.1 = jsSpliceOne ["k", "w"] "k" :=
  ⟨(submitAssessment_delete_frame assessOwnerDB { } "s" "f" "k"
      { assessments := some ["k", "w"] } ["k", "w"] { userID := some "s" }
      rfl rfl (by decide) rfl rfl).2.1,
   (submitAssessment_delete_frame assessOwnerDB { } "s" "f" "k"
      { assessments := some ["k", "w"] } ["k", "w"] { userID := some "s" }
      rfl rfl (by decide) rfl rfl).2.2.2.2.2.2⟩

end ACMMentorship
